/-
Verification of the shadow-aware cumulative solar irradiance engine
(threejsBoilerplate repository).

This file contains a shallow embedding, in Lean 4 over Mathlib's real
numbers, of the core computational functions of the repository:

* `SolarSimulator.calculateIrradiance` and its helpers, the
  sunrise-to-sunset timestep loops, the grid-based barycentric sample
  generator and the CPU raycasting evaluator
  `computeCumulativeSurfaceIrradianceWithShadows`
  (src/utils/solarSimulation.ts),
* the timestep schedule and timeline of `ShadowMapBaker.bakeShadowMaps`
  (src/utils/gpu/ShadowMapBaker.ts),
* the WGSL compute kernel generated by
  `SolarComputeShader.generateWGSLShader`, the uniform packing of shadow
  matrices, and the workgroup dispatch arithmetic (SolarComputeShader),
* the geometry upload of `GeometryBufferManager` and the shadow-timeline
  cache of `SolarGPUCompute.bakeShadows` (src/utils/gpu/index.ts).

JavaScript `number` values are modelled as real numbers (`ℝ`); where a
quantity is only ever compared or counted it is modelled as `ℚ`, `ℤ` or
`ℕ` so that the corresponding predicates stay decidable.  External
collaborators (the SunCalc astronomy library, the Three.js camera-matrix
construction, the WebGPU rasterizer and its depth-texture comparison,
and the scene's ray intersections) are modelled as explicit oracle
parameters; everything else is translated from the repository source.
-/
import Mathlib

noncomputable section

namespace Solar

open Real

/-! # Definitions -/

/-! ## Vectors and matrices (Three.js `Vector3`, `Matrix3`, `Matrix4`)

`Mat4` stores its four mathematical rows; `Mat4.mulVec` is the standard
matrix-times-column-vector product, matching what `Matrix4` represents
(its `elements` array is the column-major storage of this matrix). -/

/-- A Three.js `Vector3` with real components. -/
structure Vec3 where
  x : ℝ
  y : ℝ
  z : ℝ

instance : Add Vec3 := ⟨fun a b => ⟨a.x + b.x, a.y + b.y, a.z + b.z⟩⟩

instance : SMul ℝ Vec3 := ⟨fun c v => ⟨c * v.x, c * v.y, c * v.z⟩⟩

/-- Dot product, `Vector3.dot`. -/
def Vec3.dot (a b : Vec3) : ℝ := a.x * b.x + a.y * b.y + a.z * b.z

/-- Euclidean length, `Vector3.length`. -/
def Vec3.length (v : Vec3) : ℝ := Real.sqrt (v.dot v)

/-- `Vector3.normalize` divides by the length (on the zero vector the
Three.js guard `length || 1` and Lean's `1/0 = 0` both return the zero
vector). -/
def Vec3.normalize (v : Vec3) : Vec3 := (1 / v.length) • v

/-- A homogeneous 4-vector. -/
structure Vec4 where
  x : ℝ
  y : ℝ
  z : ℝ
  w : ℝ

/-- Dot product of 4-vectors. -/
def Vec4.dot (a b : Vec4) : ℝ := a.x * b.x + a.y * b.y + a.z * b.z + a.w * b.w

/-- A 4×4 matrix given by its four mathematical rows. -/
structure Mat4 where
  r0 : Vec4
  r1 : Vec4
  r2 : Vec4
  r3 : Vec4

/-- Standard matrix–column-vector product. -/
def Mat4.mulVec (m : Mat4) (v : Vec4) : Vec4 :=
  ⟨m.r0.dot v, m.r1.dot v, m.r2.dot v, m.r3.dot v⟩

/-- Matrix transpose. -/
def Mat4.transpose (m : Mat4) : Mat4 :=
  ⟨⟨m.r0.x, m.r1.x, m.r2.x, m.r3.x⟩,
   ⟨m.r0.y, m.r1.y, m.r2.y, m.r3.y⟩,
   ⟨m.r0.z, m.r1.z, m.r2.z, m.r3.z⟩,
   ⟨m.r0.w, m.r1.w, m.r2.w, m.r3.w⟩⟩

/-- A 3×3 matrix given by its three mathematical rows (the Three.js
normal matrix). -/
structure Mat3 where
  r0 : Vec3
  r1 : Vec3
  r2 : Vec3

/-- Standard 3×3 matrix–vector product, `Vector3.applyMatrix3`. -/
def Mat3.mulVec (m : Mat3) (v : Vec3) : Vec3 :=
  ⟨m.r0.dot v, m.r1.dot v, m.r2.dot v⟩

/-- `Vector3.applyMatrix4`: extend to homogeneous coordinates, multiply,
divide by the resulting `w`. -/
def Vec3.applyMatrix4 (v : Vec3) (m : Mat4) : Vec3 :=
  let p := m.mulVec ⟨v.x, v.y, v.z, 1⟩
  ⟨p.x / p.w, p.y / p.w, p.z / p.w⟩

/-! ## SolarSimulator.calculateIrradiance (src/utils/solarSimulation.ts)

The code computes, for a sun `altitude` in radians:
`zenith = PI/2 - altitude`, `zenithDeg = zenith * 180 / PI`, and for
`zenithDeg < 90` the Kasten-Young air mass
`1 / (cos(zenith) + 0.50572 * (96.07995 - zenithDeg) ^ (-1.6364))`,
then `DNI = 1361 * exp(-0.14 * airMass)` clamped by
`Math.max(0, Math.min(1200, dni))`. -/

/-- Zenith angle `zenith = Math.PI / 2 - altitude` from `calculateIrradiance`. -/
def zenith (altitude : ℝ) : ℝ := π / 2 - altitude

/-- Zenith angle in degrees, `zenithDeg = zenith * 180 / Math.PI`. -/
def zenithDeg (altitude : ℝ) : ℝ := zenith altitude * 180 / π

/-- Kasten-Young air mass from `calculateIrradiance`:
`airMass = 1 / (Math.cos(zenith) + 0.50572 * Math.pow(96.07995 - zenithDeg, -1.6364))`. -/
def airMass (altitude : ℝ) : ℝ :=
  1 / (Real.cos (zenith altitude) +
        0.50572 * (96.07995 - zenithDeg altitude) ^ (-1.6364 : ℝ))

/-- The denominator of the Kasten-Young air mass as a function of the
zenith angle `z` (so that `airMass a = 1 / kyDenom (zenith a)`),
introduced to analyse the monotonicity of `calculateIrradiance`. -/
def kyDenom (z : ℝ) : ℝ :=
  Real.cos z + 0.50572 * (96.07995 - z * 180 / π) ^ (-1.6364 : ℝ)

/-- Embedding of `SolarSimulator.calculateIrradiance` (solarSimulation.ts).
Returns `0` for `altitude <= 0`; otherwise, when `zenithDeg < 90`, returns
`Math.max(0, Math.min(1200, 1361 * Math.exp(-0.14 * airMass)))`, and `0`
when `zenithDeg >= 90`. -/
def calculateIrradiance (altitude : ℝ) : ℝ :=
  if altitude ≤ 0 then 0
  else if zenithDeg altitude < 90 then
    max 0 (min 1200 (1361 * Real.exp (-0.14 * airMass altitude)))
  else 0

/-- Embedding of `SolarSimulator.azimuthAltitudeToVector3`: rotate the
SunCalc azimuth by π, convert spherical to Cartesian (Y-up), normalize. -/
def azimuthAltitudeToVector3 (azimuth altitude : ℝ) : Vec3 :=
  let adjustedAzimuth := azimuth + π
  Vec3.normalize
    ⟨Real.cos altitude * Real.sin adjustedAzimuth,
     Real.sin altitude,
     Real.cos altitude * Real.cos adjustedAzimuth⟩

/-! ## Timestep schedule (ShadowMapBaker.bakeShadowMaps, solarSimulation.ts loops)

All four daily loops in the repository share the same schedule:

```
const currentTime = new Date(times.sunrise);
while (currentTime <= sunsetTime) {
  timesteps.push(new Date(currentTime));
  currentTime.setMinutes(currentTime.getMinutes() + timeStepMinutes);
}
```

Instants are modelled as epoch milliseconds (`ℤ`), and
`setMinutes(getMinutes() + step)` as adding `step * 60000` milliseconds
(its effect away from daylight-saving discontinuities).  The JS loop
diverges for `timeStepMinutes ≤ 0`; the embedding returns `[]` there and
all statements assume a positive step, as the spec does. -/

/-- Loop body of the timestep schedule: from current instant `t`, collect
`t` and continue at `t + stepMinutes * 60000` while `t ≤ sunsetMs`. -/
def buildTimestepsAux (sunsetMs : ℤ) (stepMinutes : ℕ) (t : ℤ) : List ℤ :=
  if h : 0 < stepMinutes ∧ t ≤ sunsetMs then
    t :: buildTimestepsAux sunsetMs stepMinutes (t + (stepMinutes : ℤ) * 60000)
  else []
termination_by (sunsetMs + 1 - t).toNat
decreasing_by omega

/-- Embedding of the sunrise-to-sunset timestep schedule (identical in
`bakeShadowMaps`, `analyzeDailySolarExposure` and both cumulative
irradiance loops). -/
def buildTimesteps (sunriseMs sunsetMs : ℤ) (stepMinutes : ℕ) : List ℤ :=
  buildTimestepsAux sunsetMs stepMinutes sunriseMs

/-! ## Grid-based barycentric sampling
(SolarSimulator.generateGridBarycentric) -/

/-- Embedding of `Math.ceil(Math.sqrt(x))` on naturals: the least `n`
with `n * n ≥ x` (float sqrt is exact at the magnitudes involved). -/
def ceilSqrt (x : ℕ) : ℕ :=
  if Nat.sqrt x * Nat.sqrt x = x then Nat.sqrt x else Nat.sqrt x + 1

/-- Embedding of `SolarSimulator.generateGridBarycentric` (part of
solarSimulation.ts).  A request for one sample returns the centroid;
otherwise a regular grid of `(i/gridSize, j/gridSize)` pairs with
`gridSize = ceil(sqrt(2·count))` is enumerated row by row, keeping pairs
with `u + v ≤ 1`, and the loop's early return after the `count`-th push
is the `take count`.  Barycentric coordinates are modelled as `ℚ`.
(For `count = 0` the JS code divides 0/0; all statements below assume
`count ≥ 1`.) -/
def generateGridBarycentric (count : ℕ) : List (ℚ × ℚ) :=
  if count = 1 then [(1/3, 1/3)]
  else
    let gridSize := ceilSqrt (count * 2)
    ((((List.range (gridSize + 1)).map (fun i : ℕ =>
        (List.range (gridSize + 1 - i)).map (fun j : ℕ =>
          ((i : ℚ) / gridSize, (j : ℚ) / gridSize)))).flatten).filter
      (fun p => decide (p.1 + p.2 ≤ 1))).take count

/-! ## Sample points on the mesh (SolarSimulator.generateSamplePoints)

The mesh is modelled by its local-space vertex `positions` and
`normals`, the triangle `indexList`, the world matrix and the normal
matrix (Three.js derives the latter from the former via
`Matrix3.getNormalMatrix`, a library function; here it is passed in). -/

/-- A surface sample: world-space point and unit normal. -/
structure SamplePoint where
  point : Vec3
  normal : Vec3

/-- The triangle index triples `(indices[i], indices[i+1], indices[i+2])`
visited by the `for (i += 3)` face loop. -/
def tripleChunks : List ℕ → List (ℕ × ℕ × ℕ)
  | i0 :: i1 :: i2 :: rest => (i0, i1, i2) :: tripleChunks rest
  | _ => []

/-- Attribute fetch `positions.getX/Y/Z(i)` (out-of-range reads do not
occur for the well-formed meshes considered here). -/
def getVec (l : List Vec3) (i : ℕ) : Vec3 := l.getD i ⟨0, 0, 0⟩

/-- Embedding of `SolarSimulator.generateSamplePoints`: per face, the
deterministic barycentric grid for `samplesPerFace =
max(1, ceil(count / faceCount))` is interpolated over the triangle's
vertices and normals (weights `u`, `v`, `w = 1 - u - v` applied to the
first, second and third vertex respectively, as in the source), the
point is taken to world space by the world matrix, the normal by the
normal matrix followed by normalization; the early returns after the
`count`-th push amount to `take count`. -/
def generateSamplePoints (positions normals : List Vec3) (indexList : List ℕ)
    (worldMatrix : Mat4) (normalMatrix : Mat3) (count : ℕ) :
    List SamplePoint :=
  let faceCount := indexList.length / 3
  let samplesPerFace := max 1 ((count + faceCount - 1) / faceCount)
  let grid := generateGridBarycentric samplesPerFace
  (((tripleChunks indexList).map (fun f =>
      grid.map (fun b =>
        let u : ℝ := (b.1 : ℝ)
        let v : ℝ := (b.2 : ℝ)
        let w : ℝ := 1 - u - v
        let point := (u • getVec positions f.1 + v • getVec positions f.2.1
            + w • getVec positions f.2.2).applyMatrix4 worldMatrix
        let normal := (normalMatrix.mulVec (u • getVec normals f.1
            + v • getVec normals f.2.1 + w • getVec normals f.2.2)).normalize
        SamplePoint.mk point normal))).flatten).take count

/-! ## CPU raycast evaluator
(SolarSimulator.computeCumulativeSurfaceIrradianceWithShadows)

A raycaster intersection result is modelled by the hit object's
identity, its parent's identity, its `userData.shadowCaster` tag, and
the hit distance (a float, modelled as `ℚ` so the filter stays
decidable).  The scene intersection itself
(`raycaster.intersectObjects(scene.children, true)`) is an oracle
parameter mapping (ray origin, ray direction) to the hit list. -/

/-- One entry of the `intersects` array returned by the raycaster. -/
structure Hit where
  objId : ℕ
  parentId : Option ℕ
  shadowCaster : Bool
  distance : ℚ
deriving DecidableEq

/-- Embedding of the hit filter inside
`computeCumulativeSurfaceIrradianceWithShadows`: reject the sampled mesh
itself, then (when an exclude group is given) direct children of the
exclude group and the group itself, then objects not tagged
`userData.shadowCaster === true`, and finally hits at distance
`≤ 0.01`. -/
def validHit (meshId : ℕ) (excludeGroup : Option ℕ) (h : Hit) : Bool :=
  if h.objId = meshId then false
  else if (match excludeGroup with
           | some g => decide (h.parentId = some g) || decide (h.objId = g)
           | none => false) then false
  else if !h.shadowCaster then false
  else decide ((1 : ℚ)/100 < h.distance)

/-- Per-sample, per-timestep contribution of the CPU evaluator: for a
front-facing sample (`cosθ = max(0, normal · sunDir) > 0`) cast the ray
from `point + 0.01 · normal` toward the sun and filter the hits; any
valid hit means occlusion (`DNI · diffuse`), otherwise `DNI · cosθ`;
back-facing samples contribute `DNI · diffuse · 0.5`. -/
def sampleContribution (raycast : Vec3 → Vec3 → List Hit) (meshId : ℕ)
    (excludeGroup : Option ℕ) (dni diffuseComponent : ℝ) (sunDir : Vec3)
    (sp : SamplePoint) : ℝ :=
  let cosTheta := max 0 (sp.normal.dot sunDir)
  if 0 < cosTheta then
    let rayOrigin := sp.point + (0.01 : ℝ) • sp.normal
    let intersects := raycast rayOrigin sunDir
    let validHits := intersects.filter (validHit meshId excludeGroup)
    if 0 < validHits.length then dni * diffuseComponent
    else dni * cosTheta
  else dni * diffuseComponent * 0.5

/-- The polar day/night failure of §7 of the spec. -/
inductive PolarDayNightError where
  | polarDayNight

/-- Embedding of
`SolarSimulator.computeCumulativeSurfaceIrradianceWithShadows`.
`getPosition` is the SunCalc oracle (instant ↦ (azimuth, altitude)),
`times` the SunCalc sunrise/sunset pair (`none` on polar day/night, in
which case the source returns `0` without raising), `raycast` the scene
intersection oracle.  Per timestep with positive altitude the per-sample
contributions are averaged and accumulated weighted by
`timeStepMinutes / 60`; the debug-visualization branch only mutates a
debug scene and is not part of the returned value. -/
def computeCumulativeSurfaceIrradianceWithShadows
    (getPosition : ℤ → ℝ × ℝ) (times : Option (ℤ × ℤ))
    (raycast : Vec3 → Vec3 → List Hit)
    (positions normals : List Vec3) (indexList : List ℕ)
    (worldMatrix : Mat4) (normalMatrix : Mat3) (meshId : ℕ)
    (samplePoints : ℕ) (diffuseComponent : ℝ) (timeStepMinutes : ℕ)
    (excludeGroup : Option ℕ) : Except PolarDayNightError ℝ :=
  match times with
  | none => .ok 0
  | some (sunrise, sunset) =>
      let samples := generateSamplePoints positions normals indexList
        worldMatrix normalMatrix samplePoints
      .ok ((buildTimesteps sunrise sunset timeStepMinutes).foldl
        (fun total t =>
          let pos := getPosition t
          if 0 < pos.2 then
            let sunDir := azimuthAltitudeToVector3 pos.1 pos.2
            let dni := calculateIrradiance pos.2
            let sampleIrradianceSum := (samples.map
              (sampleContribution raycast meshId excludeGroup dni
                diffuseComponent sunDir)).sum
            total + sampleIrradianceSum / samples.length
              * ((timeStepMinutes : ℝ) / 60)
          else total) 0)

/-- Embedding of `SolarSimulator.computeCumulativeSurfaceIrradiance`
(the unshadowed variant): on polar day/night the source returns `0`
without raising; otherwise it accumulates `DNI · max(0, normal ·
sunDir) · step/60` over the timesteps with positive altitude. -/
def computeCumulativeSurfaceIrradiance (getPosition : ℤ → ℝ × ℝ)
    (times : Option (ℤ × ℤ)) (surfaceNormal : Vec3)
    (timeStepMinutes : ℕ) : Except PolarDayNightError ℝ :=
  let normal := surfaceNormal.normalize
  match times with
  | none => .ok 0
  | some (sunrise, sunset) =>
      .ok ((buildTimesteps sunrise sunset timeStepMinutes).foldl
        (fun total t =>
          let pos := getPosition t
          if 0 < pos.2 then
            let sunDir := azimuthAltitudeToVector3 pos.1 pos.2
            let dni := calculateIrradiance pos.2
            let cosTheta := max 0 (normal.dot sunDir)
            total + dni * cosTheta * ((timeStepMinutes : ℝ) / 60)
          else total) 0)

/-- Result record of `analyzeDailySolarExposure` (the `maxAltitude`
field, initialized to the float `-Infinity` in the source, has no `ℝ`
counterpart and is not needed by any claim, so it is omitted here). -/
structure DailyAnalysis where
  dayLength : ℝ
  totalIrradiance : ℝ

/-- Embedding of `SolarSimulator.analyzeDailySolarExposure`: this one
throws on polar day/night; otherwise it integrates the horizontal
irradiance `DNI · max(0, sin(altitude)) · step/60` and reports the day
length in hours. -/
def analyzeDailySolarExposure (getPosition : ℤ → ℝ × ℝ)
    (times : Option (ℤ × ℤ)) (timeStepMinutes : ℕ) :
    Except PolarDayNightError DailyAnalysis :=
  match times with
  | none => .error .polarDayNight
  | some (sunrise, sunset) =>
      .ok ⟨((sunset - sunrise : ℤ) : ℝ) / (1000 * 60 * 60),
        (buildTimesteps sunrise sunset timeStepMinutes).foldl
          (fun total t =>
            let pos := getPosition t
            if 0 < pos.2 then
              let irradiance := calculateIrradiance pos.2
              let cosTheta := max 0 (Real.sin pos.2)
              total + irradiance * cosTheta * ((timeStepMinutes : ℝ) / 60)
            else total) 0⟩

/-! ## Shadow timeline (ShadowMapBaker.bakeShadowMaps)

One timeline entry per timestep with the sun above the horizon: sun
direction, DNI, and the shadow matrix (projection · viewInverse).  The
orthographic camera matrix is computed by Three.js library code from the
camera placement, so it enters as the oracle `shadowMatrixAt`. -/

/-- One entry of `BakedShadowData` (depth texture omitted — it is GPU
state addressed only through the comparison oracle). -/
structure TimelineEntry where
  sunDirection : Vec3
  sunIntensity : ℝ
  shadowMatrix : Mat4

/-- Embedding of `ShadowMapBaker.bakeShadowMaps`: throws on polar
day/night; otherwise, for each timestep with the sun above the horizon,
records direction, DNI and shadow matrix, and reports
`timestepHours = timeStepMinutes / 60`. -/
def bakeShadowMaps (getPosition : ℤ → ℝ × ℝ) (times : Option (ℤ × ℤ))
    (shadowMatrixAt : Vec3 → Mat4) (timeStepMinutes : ℕ) :
    Except PolarDayNightError (List TimelineEntry × ℝ) :=
  match times with
  | none => .error .polarDayNight
  | some (sunrise, sunset) =>
      .ok ((buildTimesteps sunrise sunset timeStepMinutes).filterMap
        (fun t =>
          let pos := getPosition t
          if 0 < pos.2 then
            let dir := azimuthAltitudeToVector3 pos.1 pos.2
            some ⟨dir, calculateIrradiance pos.2, shadowMatrixAt dir⟩
          else none),
        (timeStepMinutes : ℝ) / 60)

/-! ## The WGSL compute kernel (SolarComputeShader.generateWGSLShader)

The uniform packing (`createUniformBuffer`) writes, for each timeline
matrix, `elements[col * 4 + row]` in row-then-column order — that is,
the mathematical rows of the shadow matrix — into the four `vec4` struct
members `row0 … row3`.  The shader rebuilds
`mat4x4<f32>(sm.row0, sm.row1, sm.row2, sm.row3)`, whose constructor
arguments are COLUMN vectors in WGSL, and multiplies it with
`vec4(position, 1)`.  The depth-texture comparison
(`textureSampleCompare`) is hardware behaviour and enters as the oracle
`cmp : coordinate → layer → Bool` (true = lit). -/

/-- The `ShadowMatrix` struct of the WGSL shader (four `vec4` members). -/
structure ShadowMatrixStruct where
  row0 : Vec4
  row1 : Vec4
  row2 : Vec4
  row3 : Vec4

/-- The uniform packing of one shadow matrix in `createUniformBuffer`:
member `rowR` receives the mathematical row `R` of the matrix. -/
def packShadowMatrix (m : Mat4) : ShadowMatrixStruct :=
  ⟨m.r0, m.r1, m.r2, m.r3⟩

/-- The shader helper `shadowMatrixToMat4`: the WGSL `mat4x4`
constructor takes its arguments as columns, so struct member `rowI`
becomes column `I` of the resulting matrix. -/
def shadowMatrixToMat4 (sm : ShadowMatrixStruct) : Mat4 :=
  ⟨⟨sm.row0.x, sm.row1.x, sm.row2.x, sm.row3.x⟩,
   ⟨sm.row0.y, sm.row1.y, sm.row2.y, sm.row3.y⟩,
   ⟨sm.row0.z, sm.row1.z, sm.row2.z, sm.row3.z⟩,
   ⟨sm.row0.w, sm.row1.w, sm.row2.w, sm.row3.w⟩⟩

/-- The kernel's shadow-coordinate chain: perspective divide,
NDC → [0,1] (`* 0.5 + 0.5` on all three components), Y flip, and the
depth bias `z -= 0.0005`. -/
def biasedShadowCoord (shadowPos : Vec4) : Vec3 :=
  ⟨shadowPos.x / shadowPos.w * 0.5 + 0.5,
   1 - (shadowPos.y / shadowPos.w * 0.5 + 0.5),
   shadowPos.z / shadowPos.w * 0.5 + 0.5 - 0.0005⟩

/-- One iteration of the kernel's timestep loop for a vertex at world
`position` with `normal`: Lambert factor `cosθ = max(dot, 0)`; if the
surface faces the sun, project through the struct-rebuilt shadow matrix,
bias, sample (`cmp`), and blend
`mix(DNI · diffuse, DNI · cosθ, shadowFactor)`; otherwise contribute
`DNI · diffuse · 0.5`; in both cases weighted by `timestepHours`. -/
def wgslEntryContribution (cmp : Vec3 → ℕ → Bool) (position normal : Vec3)
    (diffuseComponent timestepHours : ℝ) (t : ℕ) (e : TimelineEntry) : ℝ :=
  let cosTheta := max (normal.dot e.sunDirection) 0
  if 0 < cosTheta then
    let shadowMatrix := shadowMatrixToMat4 (packShadowMatrix e.shadowMatrix)
    let shadowPos := shadowMatrix.mulVec ⟨position.x, position.y, position.z, 1⟩
    let shadowCoord := biasedShadowCoord shadowPos
    let shadowFactor : ℝ := if cmp shadowCoord t then 1 else 0
    let directIrradiance := e.sunIntensity * cosTheta
    let diffuseIrradiance := e.sunIntensity * diffuseComponent
    (diffuseIrradiance * (1 - shadowFactor) + directIrradiance * shadowFactor)
      * timestepHours
  else
    e.sunIntensity * diffuseComponent * 0.5 * timestepHours

/-- The kernel's per-vertex result: the accumulation loop over all
timeline entries (`t = 0 … timestepCount-1`). -/
def wgslVertexResult (cmp : Vec3 → ℕ → Bool) (position normal : Vec3)
    (timeline : List TimelineEntry) (diffuseComponent timestepHours : ℝ) : ℝ :=
  timeline.enum.foldl
    (fun total p =>
      total + wgslEntryContribution cmp position normal diffuseComponent
        timestepHours p.1 p.2) 0

/-! ## Geometry upload (GeometryBufferManager.extractGeometryData) -/

/-- World-space positions and normals as uploaded by
`extractGeometryData`: every position through the world matrix, every
normal through the normal matrix followed by normalization. -/
def extractGeometryData (positions normals : List Vec3)
    (worldMatrix : Mat4) (normalMatrix : Mat3) : List Vec3 × List Vec3 :=
  (positions.map (fun p => p.applyMatrix4 worldMatrix),
   normals.map (fun n => (normalMatrix.mulVec n).normalize))

/-- Embedding of `SolarGPUCompute.computeCumulativeIrradiance`
(idealized at the binding layer: each vertex is processed with its own
data — see the dispatch model below for what the stride mismatch
actually does): bake the timeline, upload the geometry, run the kernel
for every vertex, and average the per-vertex results. -/
def computeCumulativeIrradiance (getPosition : ℤ → ℝ × ℝ)
    (times : Option (ℤ × ℤ)) (shadowMatrixAt : Vec3 → Mat4)
    (cmp : Vec3 → ℕ → Bool) (positions normals : List Vec3)
    (worldMatrix : Mat4) (normalMatrix : Mat3)
    (timeStepMinutes : ℕ) (diffuseComponent : ℝ) :
    Except PolarDayNightError ℝ :=
  match bakeShadowMaps getPosition times shadowMatrixAt timeStepMinutes with
  | .error e => .error e
  | .ok (timeline, timestepHours) =>
      let world := extractGeometryData positions normals worldMatrix normalMatrix
      let values := (world.1.zip world.2).map
        (fun pn => wgslVertexResult cmp pn.1 pn.2 timeline diffuseComponent
          timestepHours)
      .ok (values.sum / values.length)

/-! ## Shadow-timeline cache (SolarGPUCompute.bakeShadows / dispose,
src/utils/gpu/index.ts)

The orchestrator keeps `shadowCache : Map<string, BakedShadowData>` keyed
by the string `date.toDateString() + resolution + timeStepMinutes`.  On a
hit it returns the cached object unchanged; on a miss it bakes (one
render pass per timestep), stores the result, and returns it.
`dispose()` clears the cache.  JavaScript reference identity is modelled
by a numeric timeline id allocated from a counter, and the render-pass
count is tracked explicitly. -/

/-- Cache key of `bakeShadows`: date string, shadow resolution,
timestep minutes. -/
structure BakeKey where
  dateStr : ℕ
  resolution : ℕ
  stepMinutes : ℕ
deriving DecidableEq

/-- Orchestrator state: the shadow cache (association list, newest entry
first), the allocator for timeline identities, and the cumulative count
of shadow render passes issued. -/
structure OrchestratorState where
  cache : List (BakeKey × ℕ)
  nextId : ℕ
  renders : ℕ
deriving DecidableEq

/-- Cache lookup, `this.shadowCache.get(cacheKey)`. -/
def cacheGet (s : OrchestratorState) (k : BakeKey) : Option ℕ :=
  (s.cache.find? (fun e => decide (e.1 = k))).map (·.2)

/-- Embedding of `SolarGPUCompute.bakeShadows`: on a cache hit return the
cached timeline identity with the state unchanged (no render passes); on
a miss, bake (`timestepsOf k` render passes, one per timestep), insert
the new entry, and return the fresh identity. -/
def bakeShadows (timestepsOf : BakeKey → ℕ) (s : OrchestratorState)
    (k : BakeKey) : ℕ × OrchestratorState :=
  match cacheGet s k with
  | some t => (t, s)
  | none =>
      (s.nextId,
        { cache := (k, s.nextId) :: s.cache,
          nextId := s.nextId + 1,
          renders := s.renders + timestepsOf k })

/-- Embedding of `SolarGPUCompute.dispose`: disposes every cached
timeline and clears the cache. -/
def disposeOrchestrator (s : OrchestratorState) : OrchestratorState :=
  { cache := [], nextId := s.nextId, renders := s.renders }

/-! ## Kernel dispatch and the bounds check
(SolarComputeShader.generateWGSLShader / dispatchCompute,
GeometryBufferManager.createStorageBuffer)

The host uploads positions tightly packed (3 × 4 bytes per vertex,
`data.byteLength` in `createStorageBuffer`), while the WGSL binding
`var<storage, read> positions: array<vec3<f32>>` has the mandated
element stride of 16 bytes; per the WGSL rules
`arrayLength(&positions)` is the buffer binding size divided by that
stride.  The kernel guard is
`if (vertexIndex >= arrayLength(&positions)) { return; }`, and
`dispatchCompute` launches `ceil(vertexCount / 256)` workgroups of 256
threads. -/

/-- Byte size of the uploaded positions buffer: `vertexCount * 3`
`f32` values, 4 bytes each (GeometryBufferManager.extractGeometryData /
createStorageBuffer). -/
def positionBufferBytes (vertexCount : ℕ) : ℕ := vertexCount * 3 * 4

/-- WGSL element stride of a runtime-sized `array<vec3<f32>>`:
`vec3<f32>` has size 12 and alignment 16, so the array stride is 16. -/
def vec3ArrayStride : ℕ := 16

/-- WGSL `arrayLength` of a runtime-sized array binding: binding size
divided by the element stride, rounded down. -/
def wgslArrayLength (strideBytes bufferBytes : ℕ) : ℕ :=
  bufferBytes / strideBytes

/-- The value of `arrayLength(&positions)` seen by the kernel for a mesh
with `vertexCount` vertices. -/
def positionsArrayLength (vertexCount : ℕ) : ℕ :=
  wgslArrayLength vec3ArrayStride (positionBufferBytes vertexCount)

/-- Workgroup size of the kernel (`WORKGROUP_SIZE = 256`). -/
def WORKGROUP_SIZE : ℕ := 256

/-- `Math.ceil(vertexCount / WORKGROUP_SIZE)` from `dispatchCompute`. -/
def workgroupCount (vertexCount : ℕ) : ℕ :=
  (vertexCount + (WORKGROUP_SIZE - 1)) / WORKGROUP_SIZE

/-- Total number of kernel invocations launched by `dispatchWorkgroups`. -/
def dispatchedThreads (vertexCount : ℕ) : ℕ :=
  workgroupCount vertexCount * WORKGROUP_SIZE

/-- Whether the invocation with global index `i` passes the kernel's
bounds check `vertexIndex >= arrayLength(&positions)` and therefore
reads its vertex data and writes `results[i]`. -/
def kernelWritesSlot (vertexCount i : ℕ) : Bool :=
  decide (i < positionsArrayLength vertexCount)

/-- The result slots written by a full dispatch for `vertexCount`
vertices. -/
def writtenSlots (vertexCount : ℕ) : List ℕ :=
  (List.range (dispatchedThreads vertexCount)).filter
    (kernelWritesSlot vertexCount)

/-! ## Concrete inputs used by counterexamples -/

/-- An asymmetric shadow matrix (translation by 1 along x): rows
`(1,0,0,1), (0,1,0,0), (0,0,1,0), (0,0,0,1)`. -/
def exampleShadowMatrix : Mat4 :=
  ⟨⟨1, 0, 0, 1⟩, ⟨0, 1, 0, 0⟩, ⟨0, 0, 1, 0⟩, ⟨0, 0, 0, 1⟩⟩

/-- A concrete depth-comparison oracle: lit exactly when the sampled
`x` coordinate is at most `3/4`. -/
def exampleCompare : Vec3 → ℕ → Bool :=
  fun c _ => decide (c.x ≤ 3/4)

/-- The identity world matrix. -/
def identityMat4 : Mat4 :=
  ⟨⟨1, 0, 0, 0⟩, ⟨0, 1, 0, 0⟩, ⟨0, 0, 1, 0⟩, ⟨0, 0, 0, 1⟩⟩

/-- The identity normal matrix. -/
def identityMat3 : Mat3 := ⟨⟨1, 0, 0⟩, ⟨0, 1, 0⟩, ⟨0, 0, 1⟩⟩

/-- A SunCalc oracle putting the sun at the zenith (azimuth 0, altitude
π/2) at every queried instant — the equator at an equinox noon. -/
def zenithSunOracle : ℤ → ℝ × ℝ := fun _ => (0, π / 2)

/-- A depth-comparison oracle that always reports lit (the depth map of
a scene with no occluders). -/
def alwaysLit : Vec3 → ℕ → Bool := fun _ _ => true

/-- A ray-intersection oracle that never reports a hit (a scene with no
occluders). -/
def noHits : Vec3 → Vec3 → List Hit := fun _ _ => []

/-- Positions of a two-triangle mesh (two coincident triangles, one
facing up, one facing down). -/
def twoTriPositions : List Vec3 :=
  [⟨0, 0, 0⟩, ⟨1, 0, 0⟩, ⟨0, 0, 1⟩, ⟨0, 0, 0⟩, ⟨1, 0, 0⟩, ⟨0, 0, 1⟩]

/-- Normals of the two-triangle mesh: the first face points up
(`(0,1,0)`), the second down (`(0,-1,0)`). -/
def twoTriNormals : List Vec3 :=
  [⟨0, 1, 0⟩, ⟨0, 1, 0⟩, ⟨0, 1, 0⟩, ⟨0, -1, 0⟩, ⟨0, -1, 0⟩, ⟨0, -1, 0⟩]

/-- Index list of the two-triangle mesh. -/
def twoTriIndexList : List ℕ := [0, 1, 2, 3, 4, 5]

/-! # Theorems -/

/-! ## C4: the clear-sky irradiance model -/

/-- For positive altitude the internal `zenithDeg < 90` test always succeeds. -/
theorem zenithDeg_lt_90 {a : ℝ} (ha : 0 < a) : zenithDeg a < 90 := by
  have hπ : (0:ℝ) < π := Real.pi_pos
  have : zenith a * 180 < 90 * π := by
    unfold zenith; nlinarith
  unfold zenithDeg
  rw [div_lt_iff₀ hπ]
  linarith

theorem zenithDeg_ge_90_iff (a : ℝ) : 90 ≤ zenithDeg a ↔ a ≤ 0 := by
  have hπ : (0:ℝ) < π := Real.pi_pos
  unfold zenithDeg zenith
  rw [le_div_iff₀ hπ]
  constructor
  · intro h; nlinarith
  · intro h; nlinarith

/-- C4.  For every sun altitude, the direct-normal irradiance function
returns `0` when `altitude ≤ 0` (equivalently, exactly when
`zenithDeg ≥ 90`), and otherwise returns `1361 · exp(−0.14 · AM)` clamped
to the interval `[0, 1200]`, with `AM` the Kasten-Young air mass
`1 / (cos(zenith) + 0.50572 · (96.07995 − zenith_deg) ^ (−1.6364))` and
`zenith = π/2 − altitude`.  The result always lies in `[0, 1200]`. -/
theorem C4_calculateIrradiance_spec (a : ℝ) :
    calculateIrradiance a =
      (if 0 < a then
        max 0 (min 1200 (1361 *
          Real.exp (-0.14 *
            (1 / (Real.cos (π / 2 - a) +
              0.50572 * (96.07995 - (π / 2 - a) * 180 / π) ^ (-1.6364 : ℝ))))))
       else 0)
    ∧ (90 ≤ zenithDeg a ↔ a ≤ 0)
    ∧ 0 ≤ calculateIrradiance a ∧ calculateIrradiance a ≤ 1200 := by
  refine ⟨?_, zenithDeg_ge_90_iff a, ?_, ?_⟩
  · unfold calculateIrradiance
    rcases le_or_lt a 0 with h | h
    · rw [if_pos h, if_neg (not_lt.mpr h)]
    · rw [if_neg (not_le.mpr h), if_pos h, if_pos (zenithDeg_lt_90 h)]
      unfold airMass zenith zenithDeg zenith
      ring_nf
  · unfold calculateIrradiance
    split
    · exact le_rfl
    · split
      · exact le_max_left 0 _
      · exact le_rfl
  · unfold calculateIrradiance
    split
    · norm_num
    · split
      · exact max_le (by norm_num) (min_le_left _ _)
      · norm_num

/-! ## C6: the timestep schedule -/

theorem buildTimestepsAux_eq (s : ℤ) (m : ℕ) (hm : 0 < m) :
    ∀ (n : ℕ) (t : ℤ), (s + 1 - t).toNat ≤ n →
      buildTimestepsAux s m t =
        if t ≤ s then
          (List.range ((s - t).toNat / (m * 60000) + 1)).map
            (fun i : ℕ => t + (i : ℤ) * ((m : ℤ) * 60000))
        else [] := by
  intro n
  induction n with
  | zero =>
    intro t ht
    rw [buildTimestepsAux]
    have : ¬ t ≤ s := by omega
    rw [dif_neg (by tauto), if_neg this]
  | succ n ih =>
    intro t ht
    rw [buildTimestepsAux]
    by_cases hts : t ≤ s
    · rw [dif_pos ⟨hm, hts⟩, if_pos hts]
      have hrec := ih (t + (m : ℤ) * 60000) (by omega)
      by_cases hts' : t + (m : ℤ) * 60000 ≤ s
      · rw [hrec, if_pos hts']
        have hDle : m * 60000 ≤ (s - t).toNat := by omega
        have hDpos : 0 < m * 60000 := by omega
        have hsub : (s - (t + (m : ℤ) * 60000)).toNat
            = (s - t).toNat - m * 60000 := by omega
        have hdiv : ((s - t).toNat - m * 60000) / (m * 60000) + 1
            = (s - t).toNat / (m * 60000) := by
          conv_rhs => rw [← Nat.sub_add_cancel hDle]
          rw [Nat.add_div_right _ hDpos]
        rw [hsub, hdiv, List.range_succ_eq_map, List.map_cons, List.map_map]
        refine congrArg₂ (· :: ·) (by push_cast; ring) (List.map_congr_left ?_)
        intro i hi
        simp only [Function.comp_apply, Nat.succ_eq_add_one]
        push_cast
        ring
      · rw [hrec, if_neg hts']
        have : (s - t).toNat / (m * 60000) = 0 := by
          apply Nat.div_eq_of_lt; omega
        rw [this, List.range_succ]
        norm_num
    · rw [dif_neg (by tauto), if_neg hts]

/-- Closed form of the timestep schedule: stepping forward from sunrise
while the current instant is at most sunset yields exactly the instants
`sunrise + i * stepMinutes * 60000` for `0 ≤ i ≤ (sunset - sunrise) / step`. -/
theorem buildTimesteps_closedForm (r s : ℤ) (m : ℕ) (hm : 0 < m) (hrs : r ≤ s) :
    buildTimesteps r s m =
      (List.range ((s - r).toNat / (m * 60000) + 1)).map
        (fun i : ℕ => r + (i : ℤ) * ((m : ℤ) * 60000)) := by
  unfold buildTimesteps
  rw [buildTimestepsAux_eq s m hm ((s + 1 - r).toNat) r le_rfl, if_pos hrs]

theorem buildTimesteps_empty (r s : ℤ) (m : ℕ) (hm : 0 < m) (hrs : s < r) :
    buildTimesteps r s m = [] := by
  unfold buildTimesteps
  rw [buildTimestepsAux_eq s m hm ((s + 1 - r).toNat) r le_rfl,
    if_neg (not_le.mpr hrs)]

/-- C6 (amended).  For sunrise ≤ sunset and positive `stepMinutes`, the
generated timestep sequence is exactly `sunrise, sunrise + step,
sunrise + 2·step, …` up to sunset, is strictly increasing, is
deterministic (the embedding is a pure function, so two calls with the
same arguments are definitionally equal), and contains the sunrise
instant; it contains the sunset instant if and only if the step (in
milliseconds) exactly divides `sunset − sunrise`. -/
theorem C6_buildTimesteps_spec (r s : ℤ) (m : ℕ) (hm : 0 < m) (hrs : r ≤ s) :
    buildTimesteps r s m =
      (List.range ((s - r).toNat / (m * 60000) + 1)).map
        (fun i : ℕ => r + (i : ℤ) * ((m : ℤ) * 60000))
    ∧ (buildTimesteps r s m).Pairwise (· < ·)
    ∧ buildTimesteps r s m = buildTimesteps r s m
    ∧ r ∈ buildTimesteps r s m
    ∧ (s ∈ buildTimesteps r s m ↔ ((m : ℤ) * 60000) ∣ (s - r)) := by
  have hcf := buildTimesteps_closedForm r s m hm hrs
  have hD : (0:ℤ) < (m : ℤ) * 60000 := by positivity
  refine ⟨hcf, ?_, rfl, ?_, ?_⟩
  · rw [hcf]
    refine List.Pairwise.map _ (fun a b hab => ?_) (List.pairwise_lt_range _)
    have : (a : ℤ) < (b : ℤ) := by exact_mod_cast hab
    nlinarith
  · rw [hcf]
    exact List.mem_map.mpr ⟨0, List.mem_range.mpr (Nat.succ_pos _), by simp⟩
  · rw [hcf]
    constructor
    · intro hmem
      obtain ⟨i, _, hei⟩ := List.mem_map.mp hmem
      exact ⟨(i : ℤ), by rw [← hei]; ring⟩
    · rintro ⟨c, hc⟩
      have hc0 : 0 ≤ c := by nlinarith
      have hct : (c.toNat : ℤ) = c := Int.toNat_of_nonneg hc0
      have htn : (s - r).toNat = m * 60000 * c.toNat := by
        have : s - r = ((m * 60000 * c.toNat : ℕ) : ℤ) := by
          push_cast [hct]; linarith [hc]
        omega
      refine List.mem_map.mpr ⟨c.toNat, List.mem_range.mpr ?_, ?_⟩
      · rw [htn, Nat.mul_div_cancel_left _ (by positivity)]
        omega
      · rw [hct]
        linear_combination -hc

/-- Counterexample to C6 as stated: with sunrise = 0 ms, sunset =
6 000 000 ms (a 100-minute day) and a 15-minute step, the schedule
satisfies the claim's preconditions but does not contain the sunset
instant (the last generated instant is 5 400 000 ms). -/
theorem C6_counterexample :
    (0 : ℤ) ≤ 6000000 ∧ (0 : ℕ) < 15 ∧
    (0 : ℤ) ∈ buildTimesteps 0 6000000 15 ∧
    (6000000 : ℤ) ∉ buildTimesteps 0 6000000 15 := by
  have hcf := buildTimesteps_closedForm 0 6000000 15 (by norm_num) (by norm_num)
  norm_num at hcf
  refine ⟨by norm_num, by norm_num, ?_, ?_⟩
  · rw [hcf]
    exact List.mem_map.mpr ⟨0, List.mem_range.mpr (by norm_num), by norm_num⟩
  · rw [hcf]
    intro hmem
    obtain ⟨i, hi, hei⟩ := List.mem_map.mp hmem
    omega

/-- Witness for C6: at sunrise 0 ms, sunset 3 600 000 ms and a 30-minute
step the hypotheses hold, the sunrise instant is in the schedule, and the
sunset instant is in the schedule because 1 800 000 ms divides the
3 600 000 ms day exactly. -/
theorem C6_witness :
    (0 : ℤ) ∈ buildTimesteps 0 3600000 30 ∧
    (3600000 : ℤ) ∈ buildTimesteps 0 3600000 30 :=
  ⟨(C6_buildTimesteps_spec 0 3600000 30 (by norm_num) (by norm_num)).2.2.2.1,
   (C6_buildTimesteps_spec 0 3600000 30 (by norm_num) (by norm_num)).2.2.2.2.mpr
     ⟨2, by norm_num⟩⟩

/-! ## C7: deterministic barycentric sampling -/

/-- C7.  The grid-based barycentric sample generator is a deterministic
pure function of the requested count (in this embedding, definitionally
so), every returned pair satisfies `u ≥ 0`, `v ≥ 0` and `u + v ≤ 1`, and
a request for exactly one sample yields exactly the centroid
`(1/3, 1/3)`. -/
theorem C7_generateGridBarycentric_spec (count : ℕ) (_hc : 1 ≤ count) :
    generateGridBarycentric count = generateGridBarycentric count
    ∧ (∀ p ∈ generateGridBarycentric count, 0 ≤ p.1 ∧ 0 ≤ p.2 ∧ p.1 + p.2 ≤ 1)
    ∧ generateGridBarycentric 1 = [(1/3, 1/3)] := by
  refine ⟨rfl, ?_, by norm_num [generateGridBarycentric]⟩
  intro p hp
  unfold generateGridBarycentric at hp
  by_cases h1 : count = 1
  · rw [if_pos h1] at hp
    simp only [List.mem_singleton] at hp
    subst hp
    norm_num
  · rw [if_neg h1] at hp
    have hp' := List.mem_of_mem_take hp
    rw [List.mem_filter] at hp'
    obtain ⟨hmem, hle⟩ := hp'
    have hle' : p.1 + p.2 ≤ 1 := of_decide_eq_true hle
    rw [List.mem_flatten] at hmem
    obtain ⟨row, hrow, hprow⟩ := hmem
    rw [List.mem_map] at hrow
    obtain ⟨i, _, hi⟩ := hrow
    rw [← hi, List.mem_map] at hprow
    obtain ⟨j, _, hj⟩ := hprow
    subst hj
    refine ⟨?_, ?_, hle'⟩ <;> positivity

/-- Witness for C7: the theorem applied at the concrete request of nine
samples (discharging `1 ≤ 9`) yields the centroid fact. -/
theorem C7_witness : generateGridBarycentric 1 = [(1/3, 1/3)] :=
  (C7_generateGridBarycentric_spec 9 (by norm_num)).2.2

/-! ## C8: shadow-timeline cache correctness -/

/-- C8.  For every pair of bake requests with the same key, the second
request returns the identical timeline identity that the first request
returned, performs no render passes, and leaves the state unchanged; the
entry is present in the cache after the first request; an existing cache
entry is never removed or replaced by any later bake request (only
`dispose` clears the cache). -/
theorem C8_bakeShadows_cache_spec (timestepsOf : BakeKey → ℕ)
    (s : OrchestratorState) (k : BakeKey) :
    (bakeShadows timestepsOf (bakeShadows timestepsOf s k).2 k).1
        = (bakeShadows timestepsOf s k).1
    ∧ (bakeShadows timestepsOf (bakeShadows timestepsOf s k).2 k).2
        = (bakeShadows timestepsOf s k).2
    ∧ cacheGet (bakeShadows timestepsOf s k).2 k
        = some (bakeShadows timestepsOf s k).1
    ∧ (∀ k' t, cacheGet s k' = some t →
        cacheGet (bakeShadows timestepsOf s k).2 k' = some t)
    ∧ cacheGet (disposeOrchestrator s) k = none := by
  have hget : ∀ (c : List (BakeKey × ℕ)) (n r t : ℕ),
      cacheGet ⟨(k, t) :: c, n, r⟩ k = some t := by
    intro c n r t
    unfold cacheGet
    rw [List.find?_cons_of_pos _ (by simp)]
    rfl
  refine ⟨?_, ?_, ?_, ?_, ?_⟩
  · unfold bakeShadows
    cases h : cacheGet s k with
    | some t => simp [h]
    | none => simp [h, hget]
  · unfold bakeShadows
    cases h : cacheGet s k with
    | some t => simp [h]
    | none => simp [h, hget]
  · unfold bakeShadows
    cases h : cacheGet s k with
    | some t => simp [h]
    | none =>
        simpa [h] using hget s.cache (s.nextId + 1) (s.renders + timestepsOf k) s.nextId
  · intro k' t hk'
    unfold bakeShadows
    cases h : cacheGet s k with
    | some u => simpa [h] using hk'
    | none =>
        simp only [h]
        unfold cacheGet at hk' ⊢
        rw [List.find?_cons_of_neg]
        · exact hk'
        · simp only [decide_eq_true_eq]
          intro hkk
          unfold cacheGet at h
          rw [← hkk] at hk'
          rw [h] at hk'
          exact Option.noConfusion hk'
  · unfold cacheGet disposeOrchestrator
    rfl

/-! ## C10: dispatch bounds and the stride mismatch -/

/-- Invocations at or beyond `vertexCount` do return early (this half of
C10 holds), but the guard in fact cuts off at
`⌊3·vertexCount/4⌋ < vertexCount`: the positions are packed with a
12-byte stride into an array whose WGSL stride is 16 bytes, so for every
positive vertex count the last vertex's result slot is never written. -/
theorem kernelGuard_cutoff (n : ℕ) (hn : 0 < n) :
    (∀ i, n ≤ i → kernelWritesSlot n i = false)
    ∧ positionsArrayLength n = 3 * n / 4
    ∧ positionsArrayLength n < n
    ∧ kernelWritesSlot n (n - 1) = false := by
  have harr : positionsArrayLength n = 3 * n / 4 := by
    unfold positionsArrayLength wgslArrayLength positionBufferBytes vec3ArrayStride
    omega
  refine ⟨?_, harr, ?_, ?_⟩
  · intro i hi
    unfold kernelWritesSlot
    rw [harr]
    simp only [decide_eq_false_iff_not, not_lt]
    omega
  · rw [harr]; omega
  · unfold kernelWritesSlot
    rw [harr]
    simp only [decide_eq_false_iff_not, not_lt]
    omega

/-- C10 at the failing input `vertexCount = 6`: the positions buffer is
72 bytes, the kernel sees `arrayLength(&positions) = 72 / 16 = 4`, a
single 256-thread workgroup is dispatched, and only result slots
`0, 1, 2, 3` are written — slots `4` and `5` (and every out-of-range
index such as `6`) are left untouched, contradicting the claim that
exactly the slots below the vertex count are written. -/
theorem C10_kernel_guard_bug :
    positionBufferBytes 6 = 72
    ∧ positionsArrayLength 6 = 4
    ∧ dispatchedThreads 6 = 256
    ∧ writtenSlots 6 = [0, 1, 2, 3]
    ∧ kernelWritesSlot 6 4 = false
    ∧ kernelWritesSlot 6 5 = false
    ∧ kernelWritesSlot 6 6 = false := by
  refine ⟨rfl, rfl, rfl, ?_, rfl, rfl, rfl⟩
  decide

/-! ## C2: the compute kernel's per-vertex accumulation -/

/-- The struct round-trip of the uniform packing: the shader's
`shadowMatrixToMat4` consumes the packed rows as columns, so the matrix
actually applied by the kernel is the TRANSPOSE of the baked shadow
matrix. -/
theorem shadowMatrixToMat4_packShadowMatrix (m : Mat4) :
    shadowMatrixToMat4 (packShadowMatrix m) = m.transpose := rfl

theorem foldl_add_eq_sum {α : Type} (f : α → ℝ) :
    ∀ (l : List α) (a : ℝ),
      l.foldl (fun acc x => acc + f x) a = a + (l.map f).sum := by
  intro l
  induction l with
  | nil => intro a; simp
  | cons x xs ih =>
    intro a
    simp only [List.foldl_cons, List.map_cons, List.sum_cons]
    rw [ih]
    ring

/-- Pointwise form of one kernel loop iteration: because the
depth-comparison result is binary, the `mix` collapses to a two-way
choice, and the shadow coordinate is the one of `Mᵀ · (p, 1)`. -/
theorem wgslEntryContribution_eq (cmp : Vec3 → ℕ → Bool) (p n : Vec3)
    (diffuse h : ℝ) (t : ℕ) (e : TimelineEntry) :
    wgslEntryContribution cmp p n diffuse h t e =
      (if 0 < max (n.dot e.sunDirection) 0 then
        (if cmp (biasedShadowCoord
            (e.shadowMatrix.transpose.mulVec ⟨p.x, p.y, p.z, 1⟩)) t
         then e.sunIntensity * max (n.dot e.sunDirection) 0
         else e.sunIntensity * diffuse) * h
       else e.sunIntensity * diffuse * 0.5 * h) := by
  simp only [wgslEntryContribution, shadowMatrixToMat4_packShadowMatrix]
  by_cases hcos : 0 < max (n.dot e.sunDirection) 0
  · rw [if_pos hcos, if_pos hcos]
    by_cases hcmp : cmp (biasedShadowCoord
        (e.shadowMatrix.transpose.mulVec ⟨p.x, p.y, p.z, 1⟩)) t
    · rw [if_pos hcmp, if_pos hcmp]; ring
    · rw [if_neg hcmp, if_neg hcmp]; ring
  · rw [if_neg hcos, if_neg hcos]

/-- C2 (amended).  For every vertex with normal `n` and world position
`p`, the per-vertex kernel result equals the sum over all timeline
entries `t` of: if `cosθ = max(0, n·d_t) > 0`, then
`(if lit_t then DNI_t·cosθ else DNI_t·diffuseFraction)·timestepHours`
where `lit_t` is the binary depth comparison of the depth-biased shadow
coordinate of `M_tᵀ·(p,1)` — the TRANSPOSE of the timeline's shadow
matrix, because the row-major packed struct is consumed by the WGSL
column-vector `mat4x4` constructor — and otherwise
`DNI_t·diffuseFraction·0.5·timestepHours`. -/
theorem C2_wgslVertexResult_spec (cmp : Vec3 → ℕ → Bool) (p n : Vec3)
    (timeline : List TimelineEntry) (diffuse h : ℝ) :
    wgslVertexResult cmp p n timeline diffuse h =
      (timeline.enum.map (fun q =>
        if 0 < max (n.dot q.2.sunDirection) 0 then
          (if cmp (biasedShadowCoord
              (q.2.shadowMatrix.transpose.mulVec ⟨p.x, p.y, p.z, 1⟩)) q.1
           then q.2.sunIntensity * max (n.dot q.2.sunDirection) 0
           else q.2.sunIntensity * diffuse) * h
        else q.2.sunIntensity * diffuse * 0.5 * h)).sum := by
  unfold wgslVertexResult
  rw [foldl_add_eq_sum (fun q : ℕ × TimelineEntry =>
    wgslEntryContribution cmp p n diffuse h q.1 q.2) timeline.enum 0]
  rw [zero_add]
  refine congrArg List.sum (List.map_congr_left ?_)
  intro q _
  exact wgslEntryContribution_eq cmp p n diffuse h q.1 q.2

/-- Counterexample to C2 as stated: with the asymmetric shadow matrix
`exampleShadowMatrix` (x-translation), vertex `p = (0,0,0)`,
`n = d = (0,1,0)`, DNI 1000, diffuse fraction 0.12, one timestep of one
hour, and the comparison oracle `exampleCompare` (lit iff sampled
x ≤ 3/4): the kernel returns 1000 (it projects with `Mᵀ`, sampling
x = 0.5, lit), while the claim's formula — the same chain applied to
`M·(p,1)` — yields 120 (it samples x = 1, occluded). -/
theorem C2_counterexample :
    wgslVertexResult exampleCompare ⟨0, 0, 0⟩ ⟨0, 1, 0⟩
        [⟨⟨0, 1, 0⟩, 1000, exampleShadowMatrix⟩] 0.12 1 = 1000
    ∧ (if 0 < max (Vec3.dot ⟨0, 1, 0⟩ ⟨0, 1, 0⟩) 0 then
        (if exampleCompare (biasedShadowCoord
            (exampleShadowMatrix.mulVec ⟨0, 0, 0, 1⟩)) 0
         then (1000 : ℝ) * max (Vec3.dot ⟨0, 1, 0⟩ ⟨0, 1, 0⟩) 0
         else 1000 * 0.12) * 1
       else 1000 * 0.12 * 0.5 * 1) = 120
    ∧ (1000 : ℝ) ≠ 120 := by
  refine ⟨?_, ?_, by norm_num⟩
  · have hdot : Vec3.dot ⟨0, 1, 0⟩ ⟨0, 1, 0⟩ = 1 := by
      unfold Vec3.dot; norm_num
    have hcoord : biasedShadowCoord
        (Mat4.mulVec (Mat4.transpose exampleShadowMatrix) ⟨0, 0, 0, 1⟩)
        = ⟨0.5, 0.5, 0.4995⟩ := by
      unfold exampleShadowMatrix Mat4.transpose Mat4.mulVec Vec4.dot
        biasedShadowCoord
      norm_num
    have hcmp : exampleCompare ⟨0.5, 0.5, 0.4995⟩ 0 = true := by
      unfold exampleCompare
      rw [decide_eq_true_eq]
      norm_num
    unfold wgslVertexResult List.enum
    simp only [List.enumFrom, List.foldl_cons, List.foldl_nil]
    rw [wgslEntryContribution_eq]
    simp only [hdot, hcoord, hcmp]
    norm_num
  · have hdot : Vec3.dot ⟨0, 1, 0⟩ ⟨0, 1, 0⟩ = 1 := by
      unfold Vec3.dot; norm_num
    have hcoord : biasedShadowCoord
        (Mat4.mulVec exampleShadowMatrix ⟨0, 0, 0, 1⟩)
        = ⟨1, 0.5, 0.4995⟩ := by
      unfold exampleShadowMatrix Mat4.mulVec Vec4.dot biasedShadowCoord
      norm_num
    have hcmp : exampleCompare ⟨1, 0.5, 0.4995⟩ 0 = false := by
      unfold exampleCompare
      rw [decide_eq_false_iff_not]
      norm_num
    simp only [hdot, hcoord, hcmp]
    norm_num

/-! ## C3: the CPU evaluator's occlusion filter and contributions -/

/-- C3.  A scene hit counts as occluding if and only if the hit object
is tagged as a shadow caster, the hit distance exceeds the 0.01
self-intersection epsilon, the hit object is not the sampled mesh, and
it neither is the excluded self-group nor is a direct child of it; a
front-facing sample with at least one such hit contributes exactly
`DNI · diffuseComponent`; a front-facing sample with no such hit
contributes exactly `DNI · cosθ`; a back-facing sample
(`normal · sunDir ≤ 0`) contributes exactly
`DNI · diffuseComponent · 0.5`. -/
theorem C3_occlusion_spec (raycast : Vec3 → Vec3 → List Hit)
    (meshId : ℕ) (excludeGroup : Option ℕ) (dni diffuse : ℝ)
    (sunDir : Vec3) (sp : SamplePoint) (h : Hit) :
    (validHit meshId excludeGroup h = true ↔
      h.shadowCaster = true ∧ (1 : ℚ)/100 < h.distance ∧ h.objId ≠ meshId ∧
        (∀ g, excludeGroup = some g → h.parentId ≠ some g ∧ h.objId ≠ g))
    ∧ (0 < sp.normal.dot sunDir →
        (raycast (sp.point + (0.01 : ℝ) • sp.normal) sunDir).filter
            (validHit meshId excludeGroup) ≠ [] →
        sampleContribution raycast meshId excludeGroup dni diffuse sunDir sp
          = dni * diffuse)
    ∧ (0 < sp.normal.dot sunDir →
        (raycast (sp.point + (0.01 : ℝ) • sp.normal) sunDir).filter
            (validHit meshId excludeGroup) = [] →
        sampleContribution raycast meshId excludeGroup dni diffuse sunDir sp
          = dni * sp.normal.dot sunDir)
    ∧ (sp.normal.dot sunDir ≤ 0 →
        sampleContribution raycast meshId excludeGroup dni diffuse sunDir sp
          = dni * diffuse * 0.5) := by
  refine ⟨?_, ?_, ?_, ?_⟩
  · unfold validHit
    cases excludeGroup with
    | none =>
        split_ifs with h1 h2 h3
        · simp_all
        · simp_all
        · simp at h3
          simp_all
        · simp at h3
          simp only [decide_eq_true_eq]
          constructor
          · intro hd
            exact ⟨h3, hd, h1, by intro g hg; cases hg⟩
          · intro hc
            exact hc.2.1
    | some g =>
        split_ifs with h1 h2 h3
        · simp only [Bool.false_eq_true, false_iff]
          intro hc
          exact hc.2.2.1 h1
        · simp only [Bool.or_eq_true, decide_eq_true_eq] at h2
          simp only [Bool.false_eq_true, false_iff]
          intro hc
          rcases h2 with h2 | h2
          · exact (hc.2.2.2 g rfl).1 h2
          · exact (hc.2.2.2 g rfl).2 h2
        · simp at h3
          simp_all
        · simp at h3
          simp only [Bool.or_eq_true, decide_eq_true_eq] at h2
          push_neg at h2
          simp only [decide_eq_true_eq]
          constructor
          · intro hd
            refine ⟨h3, hd, h1, ?_⟩
            intro g' hg'
            have : g' = g := by
              injection hg' with hgg
              exact hgg.symm
            rw [this]
            exact ⟨h2.1, h2.2⟩
          · intro hc
            exact hc.2.1
  · intro hdot hne
    simp only [sampleContribution]
    have hmax : max 0 (sp.normal.dot sunDir) = sp.normal.dot sunDir :=
      max_eq_right hdot.le
    rw [hmax, if_pos hdot, if_pos (List.length_pos.mpr hne)]
  · intro hdot hemp
    simp only [sampleContribution]
    have hmax : max 0 (sp.normal.dot sunDir) = sp.normal.dot sunDir :=
      max_eq_right hdot.le
    rw [hmax, if_pos hdot, hemp]
    norm_num
  · intro hdot
    simp only [sampleContribution]
    have hmax : max 0 (sp.normal.dot sunDir) = 0 := max_eq_left hdot
    rw [hmax, if_neg (lt_irrefl 0)]

/-- Witness for C3: a concrete front-facing sample with a single valid
occluding hit (a shadow-caster at distance 5, not the sampled mesh, no
exclude group) contributes exactly `1000 · 0.12 = 120`. -/
theorem C3_witness :
    sampleContribution (fun _ _ => [⟨1, none, true, 5⟩]) 0 none 1000 0.12
      ⟨0, 1, 0⟩ ⟨⟨0, 0, 0⟩, ⟨0, 1, 0⟩⟩ = 1000 * 0.12 :=
  (C3_occlusion_spec (fun _ _ => [⟨1, none, true, 5⟩]) 0 none 1000 0.12
      ⟨0, 1, 0⟩ ⟨⟨0, 0, 0⟩, ⟨0, 1, 0⟩⟩ ⟨1, none, true, 5⟩).2.1
    (by unfold Vec3.dot; norm_num)
    (by norm_num [validHit, List.filter])

/-! ## C5: polar day/night behaviour -/

/-- C5 (amended).  When no sunrise/sunset exists,
`analyzeDailySolarExposure` and `bakeShadowMaps` fail with a polar
day/night error — and they fail exactly then, before any timestep work —
but the two cumulative-irradiance operations never fail: they return a
silent `0` instead. -/
theorem C5_polar_behaviour (getPosition : ℤ → ℝ × ℝ)
    (shadowMatrixAt : Vec3 → Mat4) (raycast : Vec3 → Vec3 → List Hit)
    (positions normals : List Vec3) (indexList : List ℕ)
    (worldMatrix : Mat4) (normalMatrix : Mat3) (meshId : ℕ)
    (surfaceNormal : Vec3) (samplePoints : ℕ) (diffuse : ℝ)
    (stepMinutes : ℕ) (excludeGroup : Option ℕ) (times : Option (ℤ × ℤ)) :
    (analyzeDailySolarExposure getPosition times stepMinutes
        = .error .polarDayNight ↔ times = none)
    ∧ (bakeShadowMaps getPosition times shadowMatrixAt stepMinutes
        = .error .polarDayNight ↔ times = none)
    ∧ computeCumulativeSurfaceIrradiance getPosition times surfaceNormal
        stepMinutes ≠ .error .polarDayNight
    ∧ computeCumulativeSurfaceIrradiance getPosition none surfaceNormal
        stepMinutes = .ok 0
    ∧ computeCumulativeSurfaceIrradianceWithShadows getPosition times raycast
        positions normals indexList worldMatrix normalMatrix meshId
        samplePoints diffuse stepMinutes excludeGroup
        ≠ .error .polarDayNight
    ∧ computeCumulativeSurfaceIrradianceWithShadows getPosition none raycast
        positions normals indexList worldMatrix normalMatrix meshId
        samplePoints diffuse stepMinutes excludeGroup = .ok 0 := by
  refine ⟨?_, ?_, ?_, rfl, ?_, rfl⟩
  · cases times with
    | none => simp [analyzeDailySolarExposure]
    | some rs => simp [analyzeDailySolarExposure]
  · cases times with
    | none => simp [bakeShadowMaps]
    | some rs => simp [bakeShadowMaps]
  · cases times with
    | none => simp [computeCumulativeSurfaceIrradiance]
    | some rs => simp [computeCumulativeSurfaceIrradiance]
  · cases times with
    | none => simp [computeCumulativeSurfaceIrradianceWithShadows]
    | some rs => simp [computeCumulativeSurfaceIrradianceWithShadows]

/-- Counterexample to C5 as stated: on a polar date (`times = none`) the
cumulative surface irradiance method does not fail — it returns the
silent zero the claim forbids (and so does the shadowed variant). -/
theorem C5_counterexample :
    computeCumulativeSurfaceIrradiance zenithSunOracle none ⟨0, 1, 0⟩ 15
      = .ok 0
    ∧ computeCumulativeSurfaceIrradiance zenithSunOracle none ⟨0, 1, 0⟩ 15
      ≠ .error .polarDayNight
    ∧ computeCumulativeSurfaceIrradianceWithShadows zenithSunOracle none
        noHits twoTriPositions twoTriNormals twoTriIndexList identityMat4
        identityMat3 99 9 0.12 15 none = .ok 0 := by
  refine ⟨rfl, ?_, rfl⟩
  simp [computeCumulativeSurfaceIrradiance]

/-- Witness for C5: at a concrete polar input the two fail-fast
operations indeed fail (their hypotheses `times = none` discharged by
`rfl` through the iff of the main theorem). -/
theorem C5_witness :
    analyzeDailySolarExposure zenithSunOracle none 15
      = .error .polarDayNight
    ∧ bakeShadowMaps zenithSunOracle none (fun _ => identityMat4) 15
      = .error .polarDayNight :=
  ⟨((C5_polar_behaviour zenithSunOracle (fun _ => identityMat4) noHits
      twoTriPositions twoTriNormals twoTriIndexList identityMat4
      identityMat3 99 ⟨0, 1, 0⟩ 9 0.12 15 none none).1).mpr rfl,
   ((C5_polar_behaviour zenithSunOracle (fun _ => identityMat4) noHits
      twoTriPositions twoTriNormals twoTriIndexList identityMat4
      identityMat3 99 ⟨0, 1, 0⟩ 9 0.12 15 none none).2.1).mpr rfl⟩

/-! ## C1: CPU path versus GPU path -/

@[simp] theorem Vec3.smul_def (c : ℝ) (v : Vec3) :
    c • v = ⟨c * v.x, c * v.y, c * v.z⟩ := rfl

@[simp] theorem Vec3.add_def (a b : Vec3) :
    a + b = ⟨a.x + b.x, a.y + b.y, a.z + b.z⟩ := rfl

theorem Vec3.normalize_unitY : Vec3.normalize ⟨0, 1, 0⟩ = ⟨0, 1, 0⟩ := by
  unfold Vec3.normalize Vec3.length Vec3.dot
  norm_num

theorem Vec3.normalize_negY : Vec3.normalize ⟨0, -1, 0⟩ = ⟨0, -1, 0⟩ := by
  unfold Vec3.normalize Vec3.length Vec3.dot
  norm_num

theorem applyMatrix4_identity (v : Vec3) :
    v.applyMatrix4 identityMat4 = v := by
  cases v with
  | mk x y z =>
      unfold Vec3.applyMatrix4 identityMat4 Mat4.mulVec Vec4.dot
      norm_num

theorem mulVec3_identity (v : Vec3) : identityMat3.mulVec v = v := by
  cases v with
  | mk x y z =>
      unfold identityMat3 Mat3.mulVec Vec3.dot
      norm_num

/-- The sun direction at the zenith: azimuth 0, altitude π/2 maps to the
unit up vector. -/
theorem sunDir_zenith : azimuthAltitudeToVector3 0 (π / 2) = ⟨0, 1, 0⟩ := by
  unfold azimuthAltitudeToVector3
  rw [zero_add]
  rw [show Real.cos (π / 2) = 0 from Real.cos_pi_div_two,
    show Real.sin (π / 2) = 1 from Real.sin_pi_div_two]
  norm_num
  exact Vec3.normalize_unitY

/-- The one-instant schedule of a degenerate day (`sunrise = sunset`). -/
theorem buildTimesteps_degenerate : buildTimesteps 0 0 60 = [0] := by
  have h := buildTimesteps_closedForm 0 0 60 (by norm_num) le_rfl
  norm_num at h
  rw [h, List.range_succ]
  norm_num

/-- The five-point barycentric grid requested for each of the two faces. -/
theorem grid_five : generateGridBarycentric 5 =
    [(0, 0), (0, 1/4), (0, 1/2), (0, 3/4), (0, 1)] := by
  have h10 : Nat.sqrt 10 = 3 := by norm_num [Nat.sqrt]
  have hcs : ceilSqrt (5 * 2) = 4 := by norm_num [ceilSqrt, h10]
  have hr5 : List.range (4 + 1) = [0, 1, 2, 3, 4] := rfl
  simp only [generateGridBarycentric, hcs]
  norm_num [hr5, List.filter]

/-- The nine deterministic samples generated on the two-triangle mesh:
five on the up-facing triangle, four on the down-facing one. -/
theorem samples_two_tri :
    generateSamplePoints twoTriPositions twoTriNormals twoTriIndexList
      identityMat4 identityMat3 9 =
    [⟨⟨0, 0, 1⟩, ⟨0, 1, 0⟩⟩, ⟨⟨1/4, 0, 3/4⟩, ⟨0, 1, 0⟩⟩,
     ⟨⟨1/2, 0, 1/2⟩, ⟨0, 1, 0⟩⟩, ⟨⟨3/4, 0, 1/4⟩, ⟨0, 1, 0⟩⟩,
     ⟨⟨1, 0, 0⟩, ⟨0, 1, 0⟩⟩,
     ⟨⟨0, 0, 1⟩, ⟨0, -1, 0⟩⟩, ⟨⟨1/4, 0, 3/4⟩, ⟨0, -1, 0⟩⟩,
     ⟨⟨1/2, 0, 1/2⟩, ⟨0, -1, 0⟩⟩, ⟨⟨3/4, 0, 1/4⟩, ⟨0, -1, 0⟩⟩] := by
  have hlen : twoTriIndexList.length = 6 := rfl
  have hchunks : tripleChunks twoTriIndexList = [(0, 1, 2), (3, 4, 5)] := rfl
  simp only [generateSamplePoints, hlen, hchunks]
  norm_num [grid_five]
  simp only [twoTriPositions, twoTriNormals, getVec, List.getD]
  norm_num [List.map_cons, applyMatrix4_identity, mulVec3_identity,
    Vec3.normalize_unitY, Vec3.normalize_negY]

/-- Positive altitude gives positive direct-normal irradiance. -/
theorem calculateIrradiance_pos {a : ℝ} (ha : 0 < a) :
    0 < calculateIrradiance a := by
  unfold calculateIrradiance
  rw [if_neg (not_le.mpr ha), if_pos (zenithDeg_lt_90 ha)]
  have h1 : 0 < 1361 * Real.exp (-0.14 * airMass a) := by positivity
  exact lt_max_of_lt_right (lt_min (by norm_num) h1)

/-- In the unoccluded scene, an up-facing sample under the zenith sun
contributes the full DNI. -/
theorem sampleContribution_up (dni : ℝ) (p : Vec3) :
    sampleContribution noHits 99 none dni 0.12 ⟨0, 1, 0⟩ ⟨p, ⟨0, 1, 0⟩⟩
      = dni := by
  simp only [sampleContribution, noHits, List.filter_nil, Vec3.dot]
  norm_num

/-- A down-facing sample under the zenith sun contributes the halved
diffuse irradiance. -/
theorem sampleContribution_down (dni : ℝ) (p : Vec3) :
    sampleContribution noHits 99 none dni 0.12 ⟨0, 1, 0⟩ ⟨p, ⟨0, -1, 0⟩⟩
      = dni * 0.12 * 0.5 := by
  simp only [sampleContribution, noHits, List.filter_nil, Vec3.dot]
  norm_num

/-- The CPU evaluator on the two-triangle mesh over the one-timestep
zenith day: five lit up-facing samples and four back-facing samples
average to `(5 + 4·0.06)/9 = 131/225` of the DNI. -/
theorem cpu_two_tri_eval :
    computeCumulativeSurfaceIrradianceWithShadows zenithSunOracle
      (some (0, 0)) noHits twoTriPositions twoTriNormals twoTriIndexList
      identityMat4 identityMat3 99 9 0.12 60 none
    = .ok (131/225 * calculateIrradiance (π / 2)) := by
  have hpos : (0:ℝ) < π / 2 := by positivity
  simp only [computeCumulativeSurfaceIrradianceWithShadows,
    buildTimesteps_degenerate, samples_two_tri, zenithSunOracle,
    List.foldl_cons, List.foldl_nil, hpos, if_true, if_pos hpos,
    sunDir_zenith, List.map_cons, List.map_nil, List.sum_cons,
    List.sum_nil, List.length_cons, List.length_nil,
    sampleContribution_up, sampleContribution_down]
  refine congrArg Except.ok ?_
  push_cast
  ring

/-- The kernel value of an up-facing vertex over a single lit zenith
timestep is the full DNI times the timestep hours. -/
theorem wgslVertexResult_up (p : Vec3) (dni h : ℝ) (M : Mat4) :
    wgslVertexResult alwaysLit p ⟨0, 1, 0⟩ [⟨⟨0, 1, 0⟩, dni, M⟩] 0.12 h
      = dni * h := by
  simp only [wgslVertexResult, List.enum, List.enumFrom, List.foldl_cons,
    List.foldl_nil]
  rw [wgslEntryContribution_eq]
  simp only [alwaysLit, Vec3.dot]
  norm_num

/-- The kernel value of a down-facing vertex over a single zenith
timestep is the halved diffuse contribution times the timestep hours. -/
theorem wgslVertexResult_down (p : Vec3) (dni h : ℝ) (M : Mat4) :
    wgslVertexResult alwaysLit p ⟨0, -1, 0⟩ [⟨⟨0, 1, 0⟩, dni, M⟩] 0.12 h
      = dni * 0.12 * 0.5 * h := by
  simp only [wgslVertexResult, List.enum, List.enumFrom, List.foldl_cons,
    List.foldl_nil]
  rw [wgslEntryContribution_eq]
  simp only [alwaysLit, Vec3.dot]
  norm_num

/-- The baked timeline of the one-timestep zenith day: a single entry
with the up sun direction, the zenith DNI, and one hour per step. -/
theorem bake_zenith_eval :
    bakeShadowMaps zenithSunOracle (some (0, 0)) (fun _ => identityMat4) 60
      = .ok ([⟨⟨0, 1, 0⟩, calculateIrradiance (π / 2), identityMat4⟩], 1) := by
  have hpos : (0:ℝ) < π / 2 := by positivity
  simp only [bakeShadowMaps, buildTimesteps_degenerate, zenithSunOracle,
    List.filterMap_cons, List.filterMap_nil, hpos, if_true, if_pos hpos,
    sunDir_zenith]
  norm_num

/-- The GPU path on the two-triangle mesh over the one-timestep zenith
day: three lit up-facing vertices and three back-facing vertices average
to `(3 + 3·0.06)/6 = 53/100` of the DNI. -/
theorem gpu_two_tri_eval :
    computeCumulativeIrradiance zenithSunOracle (some (0, 0))
      (fun _ => identityMat4) alwaysLit twoTriPositions twoTriNormals
      identityMat4 identityMat3 60 0.12
    = .ok (53/100 * calculateIrradiance (π / 2)) := by
  simp only [computeCumulativeIrradiance, bake_zenith_eval,
    extractGeometryData, twoTriPositions, twoTriNormals, List.map_cons,
    List.map_nil, applyMatrix4_identity, mulVec3_identity,
    Vec3.normalize_unitY, Vec3.normalize_negY, List.zip_cons_cons,
    List.zip_nil_right, wgslVertexResult_up, wgslVertexResult_down,
    List.sum_cons, List.sum_nil, List.length_cons, List.length_nil]
  refine congrArg Except.ok ?_
  push_cast
  ring

/-- Counterexample to C1 as stated: on the two-triangle mesh, under the
zenith sun with no occluders at all (so that the CPU ray tests and the
GPU depth tests agree everywhere), both paths succeed, the CPU scalar is
`131/225 · DNI` while the GPU mean is `53/100 · DNI`, and the relative
gap (about 9%) exceeds the claimed 5% tolerance measured against either
value. -/
theorem C1_counterexample :
    computeCumulativeSurfaceIrradianceWithShadows zenithSunOracle
      (some (0, 0)) noHits twoTriPositions twoTriNormals twoTriIndexList
      identityMat4 identityMat3 99 9 0.12 60 none
      = .ok (131/225 * calculateIrradiance (π / 2))
    ∧ computeCumulativeIrradiance zenithSunOracle (some (0, 0))
      (fun _ => identityMat4) alwaysLit twoTriPositions twoTriNormals
      identityMat4 identityMat3 60 0.12
      = .ok (53/100 * calculateIrradiance (π / 2))
    ∧ 0.05 * max |131/225 * calculateIrradiance (π / 2)|
          |53/100 * calculateIrradiance (π / 2)|
        < |131/225 * calculateIrradiance (π / 2)
            - 53/100 * calculateIrradiance (π / 2)| := by
  refine ⟨cpu_two_tri_eval, gpu_two_tri_eval, ?_⟩
  have hd : 0 < calculateIrradiance (π / 2) :=
    calculateIrradiance_pos (by positivity)
  set d := calculateIrradiance (π / 2) with hdef
  have h1 : |131/225 * d| = 131/225 * d := abs_of_pos (by positivity)
  have h2 : |53/100 * d| = 53/100 * d := abs_of_pos (by positivity)
  have h3 : 131/225 * d - 53/100 * d = 47/900 * d := by ring
  have h4 : |131/225 * d - 53/100 * d| = 47/900 * d := by
    rw [h3]; exact abs_of_pos (by positivity)
  rw [h1, h2, h4, max_eq_left (by nlinarith)]
  nlinarith

/-- C1 (amended).  The two paths implement identical per-point physics:
whenever the GPU depth test and the CPU ray test reach the same
occlusion verdict for a sample point, the kernel's timestep contribution
equals the CPU evaluator's per-sample contribution times the timestep
hours.  (The cumulative scalars may nevertheless differ beyond 5%
because the CPU averages over barycentric grid samples while the GPU
averages over mesh vertices.) -/
theorem C1_perPoint_physics (raycast : Vec3 → Vec3 → List Hit)
    (meshId : ℕ) (excludeGroup : Option ℕ) (cmp : Vec3 → ℕ → Bool)
    (t : ℕ) (e : TimelineEntry) (sp : SamplePoint) (diffuse h : ℝ)
    (hsame : cmp (biasedShadowCoord
        ((shadowMatrixToMat4 (packShadowMatrix e.shadowMatrix)).mulVec
          ⟨sp.point.x, sp.point.y, sp.point.z, 1⟩)) t
      = ((raycast (sp.point + (0.01 : ℝ) • sp.normal)
          e.sunDirection).filter (validHit meshId excludeGroup)).isEmpty) :
    wgslEntryContribution cmp sp.point sp.normal diffuse h t e
      = sampleContribution raycast meshId excludeGroup e.sunIntensity
          diffuse e.sunDirection sp * h := by
  simp only [wgslEntryContribution, sampleContribution]
  rw [max_comm (sp.normal.dot e.sunDirection) 0]
  by_cases hcos : 0 < max 0 (sp.normal.dot e.sunDirection)
  · rw [if_pos hcos, if_pos hcos]
    cases hlit : cmp (biasedShadowCoord
        ((shadowMatrixToMat4 (packShadowMatrix e.shadowMatrix)).mulVec
          ⟨sp.point.x, sp.point.y, sp.point.z, 1⟩)) t with
    | true =>
        rw [hlit] at hsame
        have hemp : ((raycast (sp.point + (0.01 : ℝ) • sp.normal)
            e.sunDirection).filter (validHit meshId excludeGroup)) = [] :=
          List.isEmpty_iff.mp hsame.symm
        rw [hemp, if_pos rfl]
        simp only [List.length_nil, lt_irrefl, if_false]
        ring
    | false =>
        rw [hlit] at hsame
        have hne : ((raycast (sp.point + (0.01 : ℝ) • sp.normal)
            e.sunDirection).filter (validHit meshId excludeGroup)) ≠ [] := by
          intro hemp
          rw [hemp] at hsame
          simp at hsame
        rw [if_neg (by simp), if_pos (List.length_pos.mpr hne)]
        ring
  · rw [if_neg hcos, if_neg hcos]

/-- Witness for C1: at a concrete lit sample point (no occluders, depth
test lit) the kernel contribution and the CPU contribution agree. -/
theorem C1_witness :
    wgslEntryContribution alwaysLit ⟨0, 0, 0⟩ ⟨0, 1, 0⟩ 0.12 1 0
      ⟨⟨0, 1, 0⟩, 1000, identityMat4⟩
    = sampleContribution noHits 99 none 1000 0.12 ⟨0, 1, 0⟩
        ⟨⟨0, 0, 0⟩, ⟨0, 1, 0⟩⟩ * 1 :=
  C1_perPoint_physics noHits 99 none alwaysLit 0
    ⟨⟨0, 1, 0⟩, 1000, identityMat4⟩ ⟨⟨0, 0, 0⟩, ⟨0, 1, 0⟩⟩ 0.12 1
    (by simp [alwaysLit, noHits])

/-! ## C9: monotonicity of the irradiance model in altitude

The Kasten-Young correction term `0.50572 · (96.07995 − zenith_deg) ^
(−1.6364)` grows as the zenith angle grows, while `cos(zenith)` shrinks;
away from the zenith the cosine dominates and the air-mass denominator
`kyDenom` is antitone in the zenith angle, so the irradiance is monotone
in altitude.  Within about `2.8·10⁻⁴` rad of the zenith, however, the
correction term's slope (about `2.8·10⁻⁴` per radian) exceeds `sin z`,
`kyDenom` increases with `z`, the air mass dips below its zenith value —
a known artifact of the Kasten-Young formula, whose zenith air mass is
0.9997 rather than 1 — and the irradiance is NOT monotone: this refutes
C9 as stated and forces the exclusion of a `10⁻³` rad neighbourhood of
the zenith in the amended claim. -/

theorem airMass_eq (a : ℝ) : airMass a = 1 / kyDenom (zenith a) := rfl

theorem mDeg_lower : (57.2957 : ℝ) ≤ 180 / π := by
  rw [le_div_iff₀ Real.pi_pos]
  nlinarith [Real.pi_lt_d6]

theorem mDeg_upper : (180 : ℝ) / π ≤ 57.296 := by
  rw [div_le_iff₀ Real.pi_pos]
  nlinarith [Real.pi_gt_d6]

/-- Antitonicity of `x ^ (−1.6364)` in the base. -/
theorem rpow_negk_anti {x y : ℝ} (hx : 0 < x) (hxy : x ≤ y) :
    y ^ (-(1.6364 : ℝ)) ≤ x ^ (-(1.6364 : ℝ)) := by
  rw [Real.rpow_neg (le_of_lt hx), Real.rpow_neg (by linarith)]
  exact inv_anti₀ (Real.rpow_pos_of_pos hx _)
    (Real.rpow_le_rpow (le_of_lt hx) hxy (by norm_num))

/-- A lower bound on `X ^ (3/2)` from a square-versus-cube comparison. -/
theorem le_rpow_threeHalf {X V : ℝ} (hX : 0 ≤ X) ( _hV : 0 ≤ V)
    (h : V ^ 2 ≤ X ^ 3) : V ≤ X ^ ((3 : ℝ)/2) := by
  refine le_of_pow_le_pow_left₀ (by norm_num : (2:ℕ) ≠ 0)
    (Real.rpow_nonneg hX _) ?_
  have hpow : (X ^ ((3 : ℝ)/2)) ^ (2 : ℕ) = X ^ (3 : ℕ) := by
    rw [← Real.rpow_natCast (X ^ ((3 : ℝ)/2)) 2, ← Real.rpow_mul hX,
      show (3 : ℝ)/2 * (2 : ℕ) = ((3 : ℕ) : ℝ) by norm_num,
      Real.rpow_natCast]
  rw [hpow]
  exact h

/-- A lower bound on `X ^ (8/5)` from a fifth-power-versus-eighth-power
comparison. -/
theorem le_rpow_eightFifth {X V : ℝ} (hX : 0 ≤ X) ( _hV : 0 ≤ V)
    (h : V ^ 5 ≤ X ^ 8) : V ≤ X ^ ((8 : ℝ)/5) := by
  refine le_of_pow_le_pow_left₀ (by norm_num : (5:ℕ) ≠ 0)
    (Real.rpow_nonneg hX _) ?_
  have hpow : (X ^ ((8 : ℝ)/5)) ^ (5 : ℕ) = X ^ (8 : ℕ) := by
    rw [← Real.rpow_natCast (X ^ ((8 : ℝ)/5)) 5, ← Real.rpow_mul hX,
      show (8 : ℝ)/5 * (5 : ℕ) = ((8 : ℕ) : ℝ) by norm_num,
      Real.rpow_natCast]
  rw [hpow]
  exact h

/-- Quantitative cosine gap: for `0 < z1 ≤ z2 ≤ π/2`,
`cos z1 - cos z2 ≥ sin z1 · (1 - (z2-z1)²/16) · (z2-z1)`. -/
theorem cos_gap {z1 z2 : ℝ} (h0 : 0 < z1) (h12 : z1 ≤ z2) (h2 : z2 ≤ π/2) :
    Real.sin z1 * (1 - (z2 - z1) ^ 2 / 16) * (z2 - z1)
      ≤ Real.cos z1 - Real.cos z2 := by
  rcases eq_or_lt_of_le h12 with rfl | hlt
  · simp
  · have hπ := Real.pi_lt_d6
    have hΔpos : 0 < (z2 - z1) / 2 := by linarith
    have hΔ1 : (z2 - z1) / 2 ≤ 1 := by nlinarith
    have hcube := Real.sin_gt_sub_cube hΔpos hΔ1
    have hmidle : (z1 + z2) / 2 ≤ π / 2 := by linarith
    have hsins : Real.sin z1 ≤ Real.sin ((z1 + z2) / 2) := by
      refine Real.sin_le_sin_of_le_of_le_pi_div_two (by nlinarith [Real.pi_gt_d6]) hmidle (by linarith)
    have hcos : Real.cos z1 - Real.cos z2
        = 2 * Real.sin ((z1 + z2) / 2) * Real.sin ((z2 - z1) / 2) := by
      rw [Real.cos_sub_cos,
        show (z1 - z2) / 2 = -((z2 - z1) / 2) by ring, Real.sin_neg]
      ring
    rw [hcos]
    have hsin1pos : 0 < Real.sin z1 :=
      Real.sin_pos_of_pos_of_lt_pi h0 (by nlinarith [Real.pi_gt_d6])
    have h3 : ((z2 - z1) / 2) ^ 3 ≤ (z2 - z1) / 2 := by
      nlinarith [mul_nonneg (mul_nonneg (sub_nonneg.mpr hΔ1) hΔpos.le)
        (by linarith : (0:ℝ) ≤ (z2 - z1) / 2 + 1)]
    have hsinhalf_nonneg : 0 ≤ Real.sin ((z2 - z1) / 2) := by
      nlinarith [hcube, h3, hΔpos]
    have h1 : (1 - (z2 - z1) ^ 2 / 16) * (z2 - z1)
        ≤ 2 * Real.sin ((z2 - z1) / 2) := by nlinarith [hcube]
    nlinarith [hsins, hsin1pos, h1, hsinhalf_nonneg,
      mul_le_mul_of_nonneg_right hsins hsinhalf_nonneg]

/-- Positivity of the air-mass denominator on `[0, π/2]`. -/
theorem kyDenom_pos {z : ℝ} (h0 : 0 ≤ z) (h2 : z ≤ π/2) : 0 < kyDenom z := by
  have h90 : (π/2) * (180 / π) = 90 := by
    field_simp
    ring
  have hbase : (6.07995 : ℝ) ≤ 96.07995 - z * 180 / π := by
    have := mul_le_mul_of_nonneg_right h2 (le_of_lt (by positivity : (0:ℝ) < 180 / π))
    rw [h90] at this
    rw [mul_div_assoc]
    linarith
  have hcos : 0 ≤ Real.cos z :=
    Real.cos_nonneg_of_mem_Icc ⟨by linarith [Real.pi_pos], h2⟩
  have hcorr : 0 < 0.50572 * (96.07995 - z * 180 / π) ^ (-1.6364 : ℝ) := by
    have : 0 < (96.07995 - z * 180 / π) ^ (-1.6364 : ℝ) :=
      Real.rpow_pos_of_pos (by linarith) _
    linarith
  unfold kyDenom
  linarith

set_option maxHeartbeats 1600000 in
/-- Antitonicity of the air-mass denominator on a sub-interval
`[lo, hi]` of `(0, π/2]`, given numeric data: `X` bounds the
Kasten-Young base `96.07995 − z·180/π` from below on the interval, `B`
bounds `X ^ (−1.6364)` from above, and `L` dominates the correction
term's growth rate (`0.50572·2·57.296·B ≤ L·X`) while staying below the
cosine's decay rate (`L ≤ sin lo · (1 − (hi−lo)²/16)`). -/
theorem kyDenom_dec_piece (lo hi X B L : ℝ)
    (hlo : 0 < lo) (hhipi : hi ≤ π/2)
    (hX1 : 1 ≤ X) (hXle : X ≤ 96.07995 - hi * (180 / π))
    (hB : X ^ (-(1.6364 : ℝ)) ≤ B) (hBpos : 0 ≤ B)
    (hL : 0.50572 * (2 * (57.296 * B)) ≤ L * X)
    (hsinlo : L ≤ Real.sin lo * (1 - (hi - lo) ^ 2 / 16)) :
    ∀ z1 z2, lo ≤ z1 → z1 ≤ z2 → z2 ≤ hi → kyDenom z2 ≤ kyDenom z1 := by
  intro z1 z2 hz1 hz12 hz2
  have hmpos : (0:ℝ) < 180 / π := by positivity
  have hz1pos : 0 < z1 := lt_of_lt_of_le hlo hz1
  have hz2pi : z2 ≤ π/2 := le_trans hz2 hhipi
  -- the Kasten-Young bases
  set x1 := 96.07995 - z2 * 180 / π with hx1def
  set x2 := 96.07995 - z1 * 180 / π with hx2def
  have hXx1 : X ≤ x1 := by
    have h1 : z2 * 180 / π ≤ hi * (180 / π) := by
      rw [mul_div_assoc]
      exact mul_le_mul_of_nonneg_right hz2 (le_of_lt hmpos)
    rw [hx1def]
    linarith
  have hx1pos : 0 < x1 := lt_of_lt_of_le (by linarith) hXx1
  have hx12 : x1 ≤ x2 := by
    rw [hx1def, hx2def]
    have := mul_le_mul_of_nonneg_right hz12 (le_of_lt hmpos)
    rw [mul_div_assoc, mul_div_assoc]
    linarith
  have hx2pos : 0 < x2 := lt_of_lt_of_le hx1pos hx12
  -- powers
  set u := x1 ^ (1.6364 : ℝ) with hudef
  set v := x2 ^ (1.6364 : ℝ) with hvdef
  have hu_pos : 0 < u := Real.rpow_pos_of_pos hx1pos _
  have hv_pos : 0 < v := Real.rpow_pos_of_pos hx2pos _
  have huv : u ≤ v := Real.rpow_le_rpow (le_of_lt hx1pos) hx12 (by norm_num)
  have hinv1 : x1 ^ (-(1.6364 : ℝ)) = u⁻¹ := Real.rpow_neg (le_of_lt hx1pos) _
  have hinv2 : x2 ^ (-(1.6364 : ℝ)) = v⁻¹ := Real.rpow_neg (le_of_lt hx2pos) _
  have hBu : u⁻¹ ≤ B := by
    rw [← hinv1]
    exact le_trans (rpow_negk_anti (lt_of_lt_of_le (by linarith) hX1) hXx1) hB
  -- the ratio bound (1 - 2s)·v ≤ u with s = (x2 - x1)/x2
  have hrat : (1 - 2 * ((x2 - x1) / x2)) * v ≤ u := by
    have hr_pos : 0 < x1 / x2 := div_pos hx1pos hx2pos
    have hr_le1 : x1 / x2 ≤ 1 := div_le_one_of_le₀ hx12 (le_of_lt hx2pos)
    have hrk : (x1 / x2) ^ ((2 : ℕ) : ℝ) ≤ (x1 / x2) ^ (1.6364 : ℝ) :=
      Real.rpow_le_rpow_of_exponent_ge hr_pos hr_le1 (by norm_num)
    have hsq : 1 - 2 * ((x2 - x1) / x2) ≤ (x1 / x2) ^ ((2 : ℕ) : ℝ) := by
      rw [Real.rpow_natCast]
      have ht : (x2 - x1) / x2 = 1 - x1 / x2 := by field_simp
      rw [ht]
      nlinarith [sq_nonneg (x1 / x2 - 1)]
    have hdiv : (x1 / x2) ^ (1.6364 : ℝ) = u / v :=
      Real.div_rpow (le_of_lt hx1pos) (le_of_lt hx2pos) _
    have : 1 - 2 * ((x2 - x1) / x2) ≤ u / v := by
      rw [← hdiv]
      exact le_trans hsq hrk
    calc (1 - 2 * ((x2 - x1) / x2)) * v ≤ (u / v) * v :=
          mul_le_mul_of_nonneg_right this (le_of_lt hv_pos)
      _ = u := by field_simp
  clear_value u v
  clear_value x1 x2
  -- the rpow difference bound
  have hs_nonneg : 0 ≤ (x2 - x1) / x2 := div_nonneg (by linarith) (le_of_lt hx2pos)
  have hkey : u⁻¹ - v⁻¹ ≤ 2 * ((x2 - x1) / x2) * B := by
    have e1 : u⁻¹ - v⁻¹ = (v - u) / (u * v) := by
      rw [inv_eq_one_div, inv_eq_one_div,
        div_sub_div 1 1 (ne_of_gt hu_pos) (ne_of_gt hv_pos)]
      ring_nf
    have e2 : v - u ≤ 2 * ((x2 - x1) / x2) * v := by linarith [hrat]
    have huv_pos : 0 < u * v := mul_pos hu_pos hv_pos
    have e3 : (v - u) / (u * v) ≤ (2 * ((x2 - x1) / x2) * v) / (u * v) :=
      (div_le_div_iff_of_pos_right huv_pos).mpr e2
    have e4 : (2 * ((x2 - x1) / x2) * v) / (u * v)
        = 2 * ((x2 - x1) / x2) * u⁻¹ := by
      rw [mul_div_mul_right _ _ (ne_of_gt hv_pos), div_eq_mul_inv]
    rw [e1]
    refine le_trans e3 ?_
    rw [e4]
    have := mul_le_mul_of_nonneg_left hBu
      (by linarith : (0:ℝ) ≤ 2 * ((x2 - x1) / x2))
    linarith
  -- numerator and denominator bounds for s
  have hΔ : 0 ≤ z2 - z1 := by linarith
  have hsub : x2 - x1 = (z2 - z1) * (180 / π) := by
    rw [hx1def, hx2def]
    ring
  have hs_le : (x2 - x1) / x2 ≤ ((z2 - z1) * 57.296) / X := by
    refine div_le_div₀ (by positivity) ?_ (lt_of_lt_of_le (by linarith) hX1)
      (le_trans hXx1 hx12)
    rw [hsub]
    exact mul_le_mul_of_nonneg_left mDeg_upper hΔ
  -- correction-term growth is at most L·(z2 - z1)
  have hXpos : 0 < X := lt_of_lt_of_le one_pos hX1
  have hLpos : 0 ≤ L := by
    have h57 : (0:ℝ) ≤ 0.50572 * (2 * (57.296 * B)) := by positivity
    by_contra hneg
    push_neg at hneg
    have hprod : 0 < (-L) * X := mul_pos (neg_pos.mpr hneg) hXpos
    linarith [hL, h57, hprod]
  have hcorr : 0.50572 * (x1 ^ (-(1.6364 : ℝ)) - x2 ^ (-(1.6364 : ℝ)))
      ≤ L * (z2 - z1) := by
    rw [hinv1, hinv2]
    have h5 : 0.50572 * (u⁻¹ - v⁻¹) ≤ 0.50572 * (2 * ((x2 - x1) / x2) * B) := by
      nlinarith [hkey]
    have h6 : 0.50572 * (2 * ((x2 - x1) / x2) * B)
        ≤ 0.50572 * (2 * (((z2 - z1) * 57.296 / X) * B)) := by
      have := mul_le_mul_of_nonneg_right hs_le hBpos
      nlinarith
    have h7 : 0.50572 * (2 * (((z2 - z1) * 57.296 / X) * B)) ≤ L * (z2 - z1) := by
      have h8 := mul_le_mul_of_nonneg_right hL hΔ
      have h9 : 0.50572 * (2 * (((z2 - z1) * 57.296 / X) * B))
          = 0.50572 * (2 * (57.296 * B)) * (z2 - z1) / X := by ring
      rw [h9, div_le_iff₀ hXpos]
      nlinarith [h8]
    linarith
  -- cosine decay dominates
  have hgap := cos_gap hz1pos hz12 hz2pi
  have hsin_z1 : Real.sin lo ≤ Real.sin z1 :=
    Real.sin_le_sin_of_le_of_le_pi_div_two (by nlinarith [Real.pi_gt_d6])
      (le_trans (le_trans hz12 hz2) hhipi) hz1
  have hsinlo_nonneg : 0 ≤ Real.sin lo := by
    have := Real.sin_pos_of_pos_of_lt_pi hlo (by nlinarith [Real.pi_gt_d6, hhipi])
    linarith
  have hfac : 0 ≤ 1 - (hi - lo) ^ 2 / 16 := by
    have h1 : hi - lo ≤ π/2 - lo := by linarith
    have h2 : 0 ≤ hi - lo := by linarith
    nlinarith [Real.pi_lt_d6, hlo]
  have hL_le : L * (z2 - z1) ≤ Real.sin z1 * (1 - (z2 - z1) ^ 2 / 16) * (z2 - z1) := by
    have hΔle : z2 - z1 ≤ hi - lo := by linarith
    have hfacΔ : 1 - (hi - lo) ^ 2 / 16 ≤ 1 - (z2 - z1) ^ 2 / 16 := by nlinarith
    have hstep : L ≤ Real.sin z1 * (1 - (z2 - z1) ^ 2 / 16) := by
      calc L ≤ Real.sin lo * (1 - (hi - lo) ^ 2 / 16) := hsinlo
        _ ≤ Real.sin z1 * (1 - (hi - lo) ^ 2 / 16) :=
            mul_le_mul_of_nonneg_right hsin_z1 hfac
        _ ≤ Real.sin z1 * (1 - (z2 - z1) ^ 2 / 16) :=
            mul_le_mul_of_nonneg_left hfacΔ (by linarith)
    exact mul_le_mul_of_nonneg_right hstep hΔ
  -- assemble
  have hfinal := le_trans hcorr (le_trans hL_le hgap)
  unfold kyDenom
  rw [← hx1def, ← hx2def]
  linarith [hfinal]

/-- If `V² ≤ X³` with `1 ≤ X` and `0 < V`, then `X ^ (−1.6364) ≤ V⁻¹`
(via `X ^ (−1.6364) ≤ X ^ (−3/2)` and `V ≤ X ^ (3/2)`). -/
theorem rpow_negk_le_inv_sq_cube (X V : ℝ) (hX : 1 ≤ X) (hV : 0 < V)
    (h : V ^ 2 ≤ X ^ 3) : X ^ (-(1.6364 : ℝ)) ≤ V⁻¹ := by
  have h1 : X ^ (-(1.6364 : ℝ)) ≤ X ^ (-((3:ℝ)/2)) :=
    Real.rpow_le_rpow_of_exponent_le hX (by norm_num)
  have h2 : V ≤ X ^ ((3:ℝ)/2) := le_rpow_threeHalf (by linarith) (le_of_lt hV) h
  have h3 : X ^ (-((3:ℝ)/2)) = (X ^ ((3:ℝ)/2))⁻¹ := Real.rpow_neg (by linarith) _
  rw [h3] at h1
  exact le_trans h1 (inv_anti₀ hV h2)

/-- If `V⁵ ≤ X⁸` with `1 ≤ X` and `0 < V`, then `X ^ (−1.6364) ≤ V⁻¹`
(via `X ^ (−1.6364) ≤ X ^ (−8/5)` and `V ≤ X ^ (8/5)`). -/
theorem rpow_negk_le_inv_fifth_eighth (X V : ℝ) (hX : 1 ≤ X) (hV : 0 < V)
    (h : V ^ 5 ≤ X ^ 8) : X ^ (-(1.6364 : ℝ)) ≤ V⁻¹ := by
  have h1 : X ^ (-(1.6364 : ℝ)) ≤ X ^ (-((8:ℝ)/5)) :=
    Real.rpow_le_rpow_of_exponent_le hX (by norm_num)
  have h2 : V ≤ X ^ ((8:ℝ)/5) := le_rpow_eightFifth (by linarith) (le_of_lt hV) h
  have h3 : X ^ (-((8:ℝ)/5)) = (X ^ ((8:ℝ)/5))⁻¹ := Real.rpow_neg (by linarith) _
  rw [h3] at h1
  exact le_trans h1 (inv_anti₀ hV h2)

/-- Piece 1: `kyDenom` is antitone on `[1/1000, 1/100]`. -/
theorem kyDenom_dec_p1 : ∀ z1 z2, 1/1000 ≤ z1 → z1 ≤ z2 → z2 ≤ 1/100 →
    kyDenom z2 ≤ kyDenom z1 := by
  have hXle : (95.5069 : ℝ) ≤ 96.07995 - (1/100) * (180 / π) := by
    linarith [mDeg_upper]
  have hB : (95.5069 : ℝ) ^ (-(1.6364 : ℝ)) ≤ ((933:ℝ))⁻¹ :=
    rpow_negk_le_inv_sq_cube 95.5069 933 (by norm_num) (by norm_num) (by norm_num)
  have hsin := Real.sin_gt_sub_cube (by norm_num : (0:ℝ) < 1/1000) (by norm_num)
  exact kyDenom_dec_piece (1/1000) (1/100) 95.5069 ((933:ℝ))⁻¹ 0.0007
    (by norm_num) (by linarith [Real.pi_gt_d6]) (by norm_num) hXle hB
    (by norm_num) (by norm_num) (by linarith [hsin])

/-- Piece 2: `kyDenom` is antitone on `[1/100, 1/10]`. -/
theorem kyDenom_dec_p2 : ∀ z1 z2, 1/100 ≤ z1 → z1 ≤ z2 → z2 ≤ 1/10 →
    kyDenom z2 ≤ kyDenom z1 := by
  have hXle : (90.3503 : ℝ) ≤ 96.07995 - (1/10) * (180 / π) := by
    linarith [mDeg_upper]
  have hB : (90.3503 : ℝ) ^ (-(1.6364 : ℝ)) ≤ ((858:ℝ))⁻¹ :=
    rpow_negk_le_inv_sq_cube 90.3503 858 (by norm_num) (by norm_num) (by norm_num)
  have hsin := Real.sin_gt_sub_cube (by norm_num : (0:ℝ) < 1/100) (by norm_num)
  exact kyDenom_dec_piece (1/100) (1/10) 90.3503 ((858:ℝ))⁻¹ 0.0008
    (by norm_num) (by linarith [Real.pi_gt_d6]) (by norm_num) hXle hB
    (by norm_num) (by norm_num) (by linarith [hsin])

/-- Piece 3: `kyDenom` is antitone on `[1/10, 7/10]`. -/
theorem kyDenom_dec_p3 : ∀ z1 z2, 1/10 ≤ z1 → z1 ≤ z2 → z2 ≤ 7/10 →
    kyDenom z2 ≤ kyDenom z1 := by
  have hXle : (55.9727 : ℝ) ≤ 96.07995 - (7/10) * (180 / π) := by
    linarith [mDeg_upper]
  have hB : (55.9727 : ℝ) ^ (-(1.6364 : ℝ)) ≤ ((418:ℝ))⁻¹ :=
    rpow_negk_le_inv_sq_cube 55.9727 418 (by norm_num) (by norm_num) (by norm_num)
  have hsin := Real.sin_gt_sub_cube (by norm_num : (0:ℝ) < 1/10) (by norm_num)
  exact kyDenom_dec_piece (1/10) (7/10) 55.9727 ((418:ℝ))⁻¹ 0.0026
    (by norm_num) (by linarith [Real.pi_gt_d6]) (by norm_num) hXle hB
    (by norm_num) (by norm_num) (by linarith [hsin])

/-- Piece 4: `kyDenom` is antitone on `[7/10, π/2]`. -/
theorem kyDenom_dec_p4 : ∀ z1 z2, 7/10 ≤ z1 → z1 ≤ z2 → z2 ≤ π/2 →
    kyDenom z2 ≤ kyDenom z1 := by
  have h90 : (π/2) * (180 / π) = 90 := by
    field_simp
    ring
  have hXle : (6.07995 : ℝ) ≤ 96.07995 - (π/2) * (180 / π) := by
    rw [h90]; norm_num
  have hB : (6.07995 : ℝ) ^ (-(1.6364 : ℝ)) ≤ ((17.9:ℝ))⁻¹ :=
    rpow_negk_le_inv_fifth_eighth 6.07995 17.9 (by norm_num) (by norm_num)
      (by norm_num)
  have hsin := Real.sin_gt_sub_cube (by norm_num : (0:ℝ) < 7/10) (by norm_num)
  refine kyDenom_dec_piece (7/10) (π/2) 6.07995 ((17.9:ℝ))⁻¹ 0.54
    (by norm_num) le_rfl (by norm_num) hXle hB (by norm_num) (by norm_num) ?_
  have hgap0 : (0:ℝ) ≤ π/2 - 7/10 := by linarith [Real.pi_gt_d6]
  have hgap1 : π/2 - 7/10 ≤ 0.8708 := by linarith [Real.pi_lt_d6]
  have hsq : (π/2 - 7/10)^2 ≤ 0.8708^2 := by nlinarith [hgap0, hgap1]
  have hq0 : 0 ≤ (1 - Real.sin (7/10)) * (π/2 - 7/10)^2 :=
    mul_nonneg (by linarith [Real.sin_le_one (7/10 : ℝ)]) (sq_nonneg _)
  linarith [hsin, hsq, hq0]

/-- `kyDenom` is antitone on `[1/1000, π/2]`: once the zenith angle is
at least `10⁻³` radians, the cosine's decay dominates the correction
term's growth, so the Kasten-Young air mass is monotone there. -/
theorem kyDenom_antitone : ∀ z1 z2, 1/1000 ≤ z1 → z1 ≤ z2 → z2 ≤ π/2 →
    kyDenom z2 ≤ kyDenom z1 := by
  have e21 : kyDenom (1/10) ≤ kyDenom (1/100) :=
    kyDenom_dec_p2 (1/100) (1/10) le_rfl (by norm_num) le_rfl
  have e32 : kyDenom (7/10) ≤ kyDenom (1/10) :=
    kyDenom_dec_p3 (1/10) (7/10) le_rfl (by norm_num) le_rfl
  intro z1 z2 hz1 hz12 hz2
  rcases le_total z2 (1/100) with hz2a | hz2a
  · exact kyDenom_dec_p1 z1 z2 hz1 hz12 hz2a
  · rcases le_total z2 (1/10) with hz2b | hz2b
    · rcases le_total z1 (1/100) with hz1a | hz1a
      · have h1 : kyDenom z2 ≤ kyDenom (1/100) :=
          kyDenom_dec_p2 (1/100) z2 le_rfl hz2a hz2b
        have h2 : kyDenom (1/100) ≤ kyDenom z1 :=
          kyDenom_dec_p1 z1 (1/100) hz1 hz1a le_rfl
        linarith
      · exact kyDenom_dec_p2 z1 z2 hz1a hz12 hz2b
    · rcases le_total z2 (7/10) with hz2c | hz2c
      · rcases le_total z1 (1/100) with hz1a | hz1a
        · have h1 : kyDenom z2 ≤ kyDenom (1/10) :=
            kyDenom_dec_p3 (1/10) z2 le_rfl hz2b hz2c
          have h2 : kyDenom (1/100) ≤ kyDenom z1 :=
            kyDenom_dec_p1 z1 (1/100) hz1 hz1a le_rfl
          linarith [e21]
        · rcases le_total z1 (1/10) with hz1b | hz1b
          · have h1 : kyDenom z2 ≤ kyDenom (1/10) :=
              kyDenom_dec_p3 (1/10) z2 le_rfl hz2b hz2c
            have h2 : kyDenom (1/10) ≤ kyDenom z1 :=
              kyDenom_dec_p2 z1 (1/10) hz1a hz1b le_rfl
            linarith
          · exact kyDenom_dec_p3 z1 z2 hz1b hz12 hz2c
      · have h1 : kyDenom z2 ≤ kyDenom (7/10) :=
          kyDenom_dec_p4 (7/10) z2 le_rfl hz2c hz2
        rcases le_total z1 (1/100) with hz1a | hz1a
        · have h2 : kyDenom (1/100) ≤ kyDenom z1 :=
            kyDenom_dec_p1 z1 (1/100) hz1 hz1a le_rfl
          linarith [e21, e32]
        · rcases le_total z1 (1/10) with hz1b | hz1b
          · have h2 : kyDenom (1/10) ≤ kyDenom z1 :=
              kyDenom_dec_p2 z1 (1/10) hz1a hz1b le_rfl
            linarith [e32]
          · rcases le_total z1 (7/10) with hz1c | hz1c
            · have h2 : kyDenom (7/10) ≤ kyDenom z1 :=
                kyDenom_dec_p3 z1 (7/10) hz1b hz1c le_rfl
              linarith
            · exact kyDenom_dec_p4 z1 z2 hz1c hz12 hz2

/-- The irradiance is never negative (the clamp floors it at 0). -/
theorem calculateIrradiance_nonneg (a : ℝ) : 0 ≤ calculateIrradiance a := by
  unfold calculateIrradiance
  rcases le_or_lt a 0 with h | h
  · simp [h]
  · rw [if_neg (not_le.mpr h), if_pos (zenithDeg_lt_90 h)]
    exact le_max_left _ _

/-- When the air-mass denominator is close to 1 (true near zenith), the
`[0, 1200]` clamp in `calculateIrradiance` is transparent: the value is
exactly `1361 · exp(−0.14 / kyDenom)`, strictly between 0 and 1200. -/
theorem calculateIrradiance_eq_unclamped {a : ℝ} (ha : 0 < a)
    (hub : kyDenom (zenith a) ≤ 1.0006) (hpos : 0 < kyDenom (zenith a)) :
    calculateIrradiance a = 1361 * Real.exp (-0.14 * (1 / kyDenom (zenith a))) := by
  have hAM : (1:ℝ)/1.0006 ≤ 1 / kyDenom (zenith a) :=
    one_div_le_one_div_of_le hpos hub
  have hexp_ge : (1.1399:ℝ) ≤ Real.exp (0.14 * (1 / kyDenom (zenith a))) := by
    have h := Real.add_one_le_exp (0.14 * (1 / kyDenom (zenith a)))
    have ht : (0.1399:ℝ) ≤ 0.14 * (1 / kyDenom (zenith a)) := by linarith [hAM]
    linarith
  have hlt : 1361 * Real.exp (-0.14 * (1 / kyDenom (zenith a))) < 1200 := by
    rw [show -0.14 * (1 / kyDenom (zenith a))
        = -(0.14 * (1 / kyDenom (zenith a))) by ring,
      Real.exp_neg, ← div_eq_mul_inv,
      div_lt_iff₀ (lt_of_lt_of_le (by norm_num) hexp_ge)]
    nlinarith [hexp_ge]
  unfold calculateIrradiance
  rw [if_neg (not_le.mpr ha), if_pos (zenithDeg_lt_90 ha), airMass_eq]
  rw [min_eq_right (le_of_lt hlt), max_eq_right (by positivity)]

/-- C9 (amended).  The direct-normal irradiance is monotonically
non-decreasing in the sun altitude on `[0, π/2 − 10⁻³]`: for all
`0 ≤ a1 ≤ a2 ≤ π/2 − 10⁻³`,
`calculateIrradiance a1 ≤ calculateIrradiance a2`, because the
Kasten-Young air-mass denominator is antitone in the zenith angle away
from a `10⁻³`-radian neighbourhood of the zenith (where the formula's
polynomial correction term makes the air mass dip below its value at
`z = 0`, refuting the claim on the full range up to `π/2`). -/
theorem C9_calculateIrradiance_monotone (a1 a2 : ℝ)
    (h0 : 0 ≤ a1) (h12 : a1 ≤ a2) (h2 : a2 ≤ π/2 - 1/1000) :
    calculateIrradiance a1 ≤ calculateIrradiance a2 := by
  rcases h0.eq_or_lt with heq | h0pos
  · have h00 : calculateIrradiance 0 = 0 := by
      unfold calculateIrradiance
      rw [if_pos le_rfl]
    rw [← heq, h00]
    exact calculateIrradiance_nonneg a2
  · have ha2pos : 0 < a2 := lt_of_lt_of_le h0pos h12
    have hz2lo : 1/1000 ≤ zenith a2 := by unfold zenith; linarith
    have hz21 : zenith a2 ≤ zenith a1 := by unfold zenith; linarith
    have hz1hi : zenith a1 ≤ π/2 := by unfold zenith; linarith
    have hky := kyDenom_antitone (zenith a2) (zenith a1) hz2lo hz21 hz1hi
    have hz1lo : (0:ℝ) ≤ zenith a1 := le_trans (by norm_num) (le_trans hz2lo hz21)
    have hk1pos : 0 < kyDenom (zenith a1) := kyDenom_pos hz1lo hz1hi
    have hAM : 1 / kyDenom (zenith a2) ≤ 1 / kyDenom (zenith a1) :=
      one_div_le_one_div_of_le hk1pos hky
    unfold calculateIrradiance
    rw [if_neg (not_le.mpr h0pos), if_pos (zenithDeg_lt_90 h0pos),
      if_neg (not_le.mpr ha2pos), if_pos (zenithDeg_lt_90 ha2pos)]
    refine max_le_max le_rfl (min_le_min le_rfl ?_)
    have hexp : Real.exp (-0.14 * airMass a1) ≤ Real.exp (-0.14 * airMass a2) := by
      rw [Real.exp_le_exp, airMass_eq, airMass_eq]
      linarith [hAM]
    linarith [hexp]

/-- C9 witness: the amended monotonicity applied at the concrete
altitudes `1/2 ≤ 1`, both inside `[0, π/2 − 10⁻³]`. -/
theorem C9_witness :
    (0:ℝ) ≤ 1/2 ∧ (1:ℝ)/2 ≤ 1 ∧ (1:ℝ) ≤ π/2 - 1/1000 ∧
    calculateIrradiance (1/2) ≤ calculateIrradiance 1 :=
  ⟨by norm_num, by norm_num, by nlinarith [Real.pi_gt_d6],
   C9_calculateIrradiance_monotone (1/2) 1 (by norm_num) (by norm_num)
     (by nlinarith [Real.pi_gt_d6])⟩

set_option maxHeartbeats 1600000 in
/-- C9 counterexample: the altitudes `a1 = π/2 − 10⁻⁵ ≤ a2 = π/2` both
lie in the claim's range `[0, π/2]`, yet the irradiance strictly
DECREASES from `a1` to `a2`: within `≈ 2.8·10⁻⁴` rad of the zenith the
Kasten-Young correction term `0.50572·(96.07995 − z·180/π)^(−1.6364)`
grows faster (slope `≈ 3·10⁻⁵` per radian of zenith angle) than
`cos z` decays (slope `sin z ≈ 10⁻⁵`), so the air-mass denominator
increases with altitude there and the air mass — and with it the
irradiance — is not monotone up to `π/2`. -/
theorem C9_counterexample :
    (0:ℝ) ≤ π/2 - 1/100000 ∧ (π/2 - 1/100000 : ℝ) ≤ π/2 ∧
    calculateIrradiance (π/2) < calculateIrradiance (π/2 - 1/100000) := by
  have hπl := Real.pi_gt_d6
  have hπu := Real.pi_lt_d6
  have hπpos := Real.pi_pos
  refine ⟨by nlinarith, by nlinarith, ?_⟩
  have hzz2 : zenith (π/2) = 0 := by unfold zenith; ring
  have hzz1 : zenith (π/2 - 1/100000) = (1/100000 : ℝ) := by unfold zenith; ring
  have hw_lo : (0.00057295:ℝ) ≤ (1/100000 : ℝ) * 180 / π := by
    rw [le_div_iff₀ hπpos]
    nlinarith
  have hw_hi : (1/100000 : ℝ) * 180 / π ≤ 0.00057296 := by
    rw [div_le_iff₀ hπpos]
    nlinarith
  have hk0pos : 0 < kyDenom 0 := kyDenom_pos le_rfl (by positivity)
  have hk1pos : 0 < kyDenom (1/100000) :=
    kyDenom_pos (by norm_num) (by nlinarith)
  have hb_lo : (96:ℝ) ≤ 96.07995 - (1/100000) * 180 / π := by linarith
  have hp900 : (96.07995:ℝ) ^ (-(1.6364:ℝ)) ≤ ((900:ℝ))⁻¹ :=
    rpow_negk_le_inv_sq_cube 96.07995 900 (by norm_num) (by norm_num) (by norm_num)
  have hk0ub : kyDenom 0 ≤ 1.0006 := by
    unfold kyDenom
    rw [Real.cos_zero, show (96.07995:ℝ) - 0 * 180 / π = 96.07995 by ring]
    linarith [hp900]
  have hcube1 : (900:ℝ)^2 ≤ (96.07995 - (1/100000) * 180 / π)^3 := by
    have h3 := pow_le_pow_left₀ (by norm_num : (0:ℝ) ≤ 96) hb_lo 3
    nlinarith [h3]
  have hp900b : ((96.07995:ℝ) - (1/100000) * 180 / π) ^ (-(1.6364:ℝ)) ≤ ((900:ℝ))⁻¹ :=
    rpow_negk_le_inv_sq_cube _ 900 (by linarith) (by norm_num) hcube1
  have hk1ub : kyDenom (1/100000) ≤ 1.0006 := by
    unfold kyDenom
    have hcos := Real.cos_le_one (1/100000 : ℝ)
    linarith [hp900b]
  have hgap : kyDenom 0 < kyDenom (1/100000) := by
    unfold kyDenom
    rw [Real.cos_zero, show (96.07995:ℝ) - 0 * 180 / π = 96.07995 by ring]
    set w := (1/100000 : ℝ) * 180 / π with hwdef
    set s := w / 96.07995 with hsdef
    clear_value s
    clear_value w
    have hs_lo : (0.0000059:ℝ) ≤ s := by
      rw [hsdef, le_div_iff₀ (by norm_num : (0:ℝ) < 96.07995)]
      linarith [hw_lo]
    have hs_hi : s ≤ (0.000006:ℝ) := by
      rw [hsdef, div_le_iff₀ (by norm_num : (0:ℝ) < 96.07995)]
      linarith [hw_hi]
    have h1s : (0:ℝ) < 1 - s := by linarith
    have hb_eq : (96.07995:ℝ) - w = 96.07995 * (1 - s) := by
      rw [hsdef]; ring
    have hsplit : ((96.07995:ℝ) - w) ^ (-(1.6364:ℝ))
        = (96.07995:ℝ) ^ (-(1.6364:ℝ)) * (1 - s) ^ (-(1.6364:ℝ)) := by
      rw [hb_eq, Real.mul_rpow (by norm_num) (le_of_lt h1s)]
    have hrat2 : 1 + s ≤ (1 - s) ^ (-(1.6364:ℝ)) := by
      have e1 : (1 - s) ^ (-(1:ℝ)) ≤ (1 - s) ^ (-(1.6364:ℝ)) :=
        Real.rpow_le_rpow_of_exponent_ge h1s (by linarith) (by norm_num)
      have e2 : (1 - s) ^ (-(1:ℝ)) = (1 - s)⁻¹ := Real.rpow_neg_one _
      have e3 : 1 + s ≤ (1 - s)⁻¹ := by
        rw [inv_eq_one_div, le_div_iff₀ h1s]
        nlinarith [sq_nonneg s]
      rw [e2] at e1
      linarith
    have hPpos : (0:ℝ) < (96.07995:ℝ) ^ (-(1.6364:ℝ)) :=
      Real.rpow_pos_of_pos (by norm_num) _
    have hApow : (1/9232 : ℝ) ≤ (96.07995:ℝ) ^ (-(1.6364:ℝ)) := by
      have e1 : (96.07995:ℝ) ^ (-(2:ℝ)) ≤ (96.07995:ℝ) ^ (-(1.6364:ℝ)) :=
        Real.rpow_le_rpow_of_exponent_le (by norm_num) (by norm_num)
      have e2 : (96.07995:ℝ) ^ (-(2:ℝ)) = ((96.07995:ℝ) ^ (2:ℝ))⁻¹ :=
        Real.rpow_neg (by norm_num) _
      have e3 : ((96.07995:ℝ) ^ (2:ℝ)) = (96.07995:ℝ) ^ (2:ℕ) := Real.rpow_two _
      rw [e3] at e2
      rw [e2] at e1
      refine le_trans ?_ e1
      rw [one_div]
      exact inv_anti₀ (by norm_num) (by norm_num)
    have hcosd : 1 - 1/20000000000 ≤ Real.cos (1/100000 : ℝ) := by
      have h : 1 - (1/100000:ℝ)^2/2 ≤ Real.cos (1/100000 : ℝ) :=
        Real.one_sub_sq_div_two_le_cos
      linarith [h]
    rw [hsplit]
    have hmono1 : (96.07995:ℝ) ^ (-(1.6364:ℝ)) * (1 + s)
        ≤ (96.07995:ℝ) ^ (-(1.6364:ℝ)) * (1 - s) ^ (-(1.6364:ℝ)) :=
      mul_le_mul_of_nonneg_left hrat2 (le_of_lt hPpos)
    have hprod : (1/9232:ℝ) * 0.0000059 ≤ (96.07995:ℝ) ^ (-(1.6364:ℝ)) * s :=
      mul_le_mul hApow hs_lo (by norm_num) (le_of_lt hPpos)
    linarith [hmono1, hprod, hcosd]
  have hub2 : kyDenom (zenith (π/2)) ≤ 1.0006 := by rw [hzz2]; exact hk0ub
  have hpos2 : 0 < kyDenom (zenith (π/2)) := by rw [hzz2]; exact hk0pos
  have hirr2 := calculateIrradiance_eq_unclamped (by positivity) hub2 hpos2
  rw [hzz2] at hirr2
  have hub1 : kyDenom (zenith (π/2 - 1/100000)) ≤ 1.0006 := by
    rw [hzz1]; exact hk1ub
  have hpos1 : 0 < kyDenom (zenith (π/2 - 1/100000)) := by
    rw [hzz1]; exact hk1pos
  have hirr1 := calculateIrradiance_eq_unclamped (by nlinarith) hub1 hpos1
  rw [hzz1] at hirr1
  rw [hirr1, hirr2]
  have hinv : 1 / kyDenom (1/100000) < 1 / kyDenom 0 :=
    one_div_lt_one_div_of_lt hk0pos hgap
  have hargs : -0.14 * (1 / kyDenom 0) < -0.14 * (1 / kyDenom (1/100000)) := by
    linarith [hinv]
  have hexp := Real.exp_lt_exp.mpr hargs
  linarith [hexp]

end Solar
